import Mathlib

/-!
Shallow embedding of the locallibrary catalog API
(src/locallibrary/libapi.py and src/catalog/views.py) and proofs of the
specification claims about it.

Dates are modelled as `Nat` ordinals, user identities and the UUID-shaped
BookInstance identities as `Nat`.  The relational store (catalog/models.py
is not part of the sources; its row shapes are modelled from the spec's
data-model section) is a record of row lists plus fresh-id counters.
Django query-set operations are translated pointwise: `icontains` is
case-insensitive substring matching, `get_or_create` returns the unique
exact match, creates a row when none matches, and raises
MultipleObjectsReturned (an unhandled exception, `Resp.exn`) when several
match.  Python truthiness of update fields is modelled by `truthyS`
(strings: non-empty), `truthyD` (dates: any present value) and `truthyL`
(lists: non-empty).
-/

/-- Case-insensitive substring helper: does the character list start with the pattern. -/
def startsWithL : List Char → List Char → Bool
  | _, [] => true
  | [], _ :: _ => false
  | a :: as, b :: bs => a == b && startsWithL as bs

/-- Case-sensitive substring test on character lists. -/
def containsL : List Char → List Char → Bool
  | [], n => n.isEmpty
  | h :: t, n => startsWithL (h :: t) n || containsL t n

/-- Django `__icontains`: case-insensitive substring match, both sides
lowered characterwise. -/
def icontains (hay needle : String) : Bool :=
  containsL (hay.data.map Char.toLower) (needle.data.map Char.toLower)

/-- Python truthiness of an optional string field (None and "" are falsy). -/
def truthyS : Option String → Bool
  | some t => !t.isEmpty
  | none => false

/-- Python truthiness of an optional date field (a date object is always truthy). -/
def truthyD : Option Nat → Bool
  | some _ => true
  | none => false

/-- Python truthiness of an optional list field (None and [] are falsy). -/
def truthyL {α : Type} : Option (List α) → Bool
  | some l => !l.isEmpty
  | none => false

/-- Value of an optional string when it is known to be present. -/
def oStr (o : Option String) : String := o.getD ""

/-- Modelled from the spec: Author row of the missing catalog/models.py
(first_name, last_name, optional dates, surrogate numeric id). -/
structure AuthorRow where
  id : Nat
  first_name : String
  last_name : String
  date_of_birth : Option Nat
  date_of_death : Option Nat
deriving DecidableEq

/-- Modelled from the spec: Genre row (surrogate id, free-text name). -/
structure GenreRow where
  id : Nat
  name : String
deriving DecidableEq

/-- Modelled from the spec: Language row (surrogate id, free-text name). -/
structure LanguageRow where
  id : Nat
  name : String
deriving DecidableEq

/-- Modelled from the spec: Book row (title, summary, isbn, owning author id,
many genre ids, surrogate numeric id). -/
structure BookRow where
  id : Nat
  title : String
  author : Nat
  summary : String
  isbn : String
  genre : List Nat
deriving DecidableEq

/-- Modelled from the spec: BookInstance row (opaque unique id, book id,
imprint, optional due_back date, status code, optional borrower user id). -/
structure BookInstanceRow where
  id : Nat
  book : Nat
  imprint : String
  due_back : Option Nat
  status : String
  borrower : Option Nat
deriving DecidableEq

/-- The relational store: all rows plus fresh-id counters for surrogate keys
(nextInstanceId models the uuid4 default for BookInstance identities). -/
structure Store where
  authors : List AuthorRow
  genres : List GenreRow
  languages : List LanguageRow
  books : List BookRow
  instances : List BookInstanceRow
  nextAuthorId : Nat
  nextGenreId : Nat
  nextLanguageId : Nat
  nextBookId : Nat
  nextInstanceId : Nat
deriving DecidableEq

/-- The empty store. -/
def emptyStore : Store :=
  { authors := [], genres := [], languages := [], books := [], instances := []
    nextAuthorId := 1, nextGenreId := 1, nextLanguageId := 1, nextBookId := 1
    nextInstanceId := 1 }

/-- Total number of persisted rows across all five tables. -/
def totalRows (s : Store) : Nat :=
  s.authors.length + s.genres.length + s.languages.length + s.books.length +
    s.instances.length

/-- AuthorSchema of libapi.py: first/last name required, dates optional. -/
structure AuthorSchema where
  first_name : String
  last_name : String
  date_of_birth : Option Nat := none
  date_of_death : Option Nat := none
deriving DecidableEq

/-- AuthorSchemaUpdate of libapi.py: every field optional. -/
structure AuthorSchemaUpdate where
  first_name : Option String := none
  last_name : Option String := none
  date_of_birth : Option Nat := none
  date_of_death : Option Nat := none
deriving DecidableEq

/-- GenreSchema of libapi.py. -/
structure GenreSchema where
  name : String
deriving DecidableEq

/-- LanguageSchema of libapi.py. -/
structure LanguageSchema where
  name : String
deriving DecidableEq

/-- BookSchema of libapi.py: author and genre default to None. -/
structure BookSchema where
  title : String
  author : Option AuthorSchema := none
  summary : String
  isbn : String
  genre : Option (List GenreSchema) := none
deriving DecidableEq

/-- BookSchemaUpdate of libapi.py: every field optional. -/
structure BookSchemaUpdate where
  title : Option String := none
  author : Option AuthorSchema := none
  summary : Option String := none
  isbn : Option String := none
  genre : Option (List GenreSchema) := none
deriving DecidableEq

/-- BookInstanceSchema of libapi.py (the id field is supplied by the client
but ignored by creation, which assigns a fresh identity). -/
structure BookInstanceSchema where
  id : Nat
  book : BookSchema
  imprint : String
  due_back : Option Nat := none
  status : String
deriving DecidableEq

/-- BookInstanceSchemaUpdate of libapi.py: imprint, due_back, status only. -/
structure BookInstanceSchemaUpdate where
  imprint : Option String := none
  due_back : Option Nat := none
  status : Option String := none
deriving DecidableEq

/-- Outcome of a JSON endpoint: a 200 body, a 204 no-content, an error code
with a message body, or an unhandled exception escaping the handler. -/
inductive Resp (α : Type) where
  | ok (body : α)
  | noContent
  | err (code : Nat) (message : String)
  | exn
deriving DecidableEq

/-- Exact natural-key match used by Author.objects.get_or_create in
create_book / update_book / create_book_instance. -/
def authorKeyMatch (q : AuthorSchema) (a : AuthorRow) : Bool :=
  a.first_name == q.first_name && a.last_name == q.last_name &&
  a.date_of_birth == q.date_of_birth && a.date_of_death == q.date_of_death

/-- Author.objects.get_or_create on the four-field natural key: the unique
match if exactly one row matches, a fresh row if none does, and
MultipleObjectsReturned (none) if several do. -/
def get_or_create_author (q : AuthorSchema) (s : Store) :
    Option (AuthorRow × Store) :=
  match s.authors.filter (authorKeyMatch q) with
  | [] =>
    let a : AuthorRow :=
      { id := s.nextAuthorId, first_name := q.first_name
        last_name := q.last_name, date_of_birth := q.date_of_birth
        date_of_death := q.date_of_death }
    some (a, { s with authors := s.authors ++ [a]
                      nextAuthorId := s.nextAuthorId + 1 })
  | [a] => some (a, s)
  | _ => none

/-- Genre.objects.get_or_create on name, with the same three-way semantics. -/
def get_or_create_genre (q : GenreSchema) (s : Store) :
    Option (GenreRow × Store) :=
  match s.genres.filter (fun g => g.name == q.name) with
  | [] =>
    let g : GenreRow := { id := s.nextGenreId, name := q.name }
    some (g, { s with genres := s.genres ++ [g]
                      nextGenreId := s.nextGenreId + 1 })
  | [g] => some (g, s)
  | _ => none

/-- Genre list comprehension of create_book / update_book: resolves each
nested genre left to right, keeping the rows created before a failing
element (the comprehension is not transactional). -/
def resolve_genres : List GenreSchema → Store → Option (List Nat) × Store
  | [], s => (some [], s)
  | g :: gs, s =>
    match get_or_create_genre g s with
    | none => (none, s)
    | some (r, s1) =>
      match resolve_genres gs s1 with
      | (none, s2) => (none, s2)
      | (some ids, s2) => (some (r.id :: ids), s2)

/-- Book.objects.create step shared by create_book and the nested creation
in create_book_instance: the fresh row (genre association still empty) and
the store holding it. -/
def book_created (d : BookSchema) (a : AuthorRow) (s : Store) :
    BookRow × Store :=
  let book : BookRow :=
    { id := s.nextBookId, title := d.title, author := a.id
      summary := d.summary, isbn := d.isbn, genre := [] }
  (book, { s with books := s.books ++ [book], nextBookId := s.nextBookId + 1 })

/-- Persisting a fetched-and-mutated Book row (book.save()). -/
def save_book (id : Nat) (book : BookRow) (s : Store) : Resp BookRow × Store :=
  (Resp.ok book, { s with books := s.books.map (fun b => if b.id == id then book else b) })

/-- Truthiness-gated title overwrite of update_book (libapi.py lines 124-125). -/
def apply_title (data_in : BookSchemaUpdate) (book : BookRow) : BookRow :=
  if truthyS data_in.title then { book with title := oStr data_in.title } else book

/-- Truthiness-gated summary overwrite of update_book (lines 133-134). -/
def apply_summary (data_in : BookSchemaUpdate) (book : BookRow) : BookRow :=
  if truthyS data_in.summary then { book with summary := oStr data_in.summary } else book

/-- Truthiness-gated isbn overwrite of update_book (lines 135-136). -/
def apply_isbn (data_in : BookSchemaUpdate) (book : BookRow) : BookRow :=
  if truthyS data_in.isbn then { book with isbn := oStr data_in.isbn } else book

/-- Tail of update_book after the title/author steps: summary, isbn and the
genre set, then save (libapi.py lines 133-141). -/
def update_book_rest (id : Nat) (data_in : BookSchemaUpdate) (book : BookRow)
    (s : Store) : Resp BookRow × Store :=
  let book := apply_isbn data_in (apply_summary data_in book)
  match data_in.genre with
  | some gs =>
    if gs.isEmpty then save_book id book s
    else
      match resolve_genres gs s with
      | (none, s1) => (Resp.exn, s1)
      | (some gids, s1) => save_book id { book with genre := gids } s1
  | none => save_book id book s

/-- create_book of libapi.py lines 86-104: auth gate, author get_or_create,
Book row creation, then genre resolution and association.  A missing
author crashes before any write; a missing genre list crashes after the
Book (and Author) rows are created. -/
def create_book (auth : Bool) (data_in : BookSchema) (s : Store) :
    Resp BookRow × Store :=
  if !auth then (Resp.err 403 "Please sign in first", s) else
  match data_in.author with
  | none => (Resp.exn, s)
  | some aq =>
    match get_or_create_author aq s with
    | none => (Resp.exn, s)
    | some (a, s1) =>
      let bc := book_created data_in a s1
      match data_in.genre with
      | none => (Resp.exn, bc.2)
      | some gs =>
        match resolve_genres gs bc.2 with
        | (none, s3) => (Resp.exn, s3)
        | (some gids, s3) =>
          let book2 : BookRow := { bc.1 with genre := gids }
          (Resp.ok book2,
            { s3 with books := s3.books.map (fun b => if b.id == bc.1.id then book2 else b) })

/-- update_book of libapi.py lines 116-141: auth gate, fetch-or-404, then
truthiness-gated field overwrites and save. -/
def update_book (auth : Bool) (id : Nat) (data_in : BookSchemaUpdate)
    (s : Store) : Resp BookRow × Store :=
  if !auth then (Resp.err 403 "Please sign in first", s) else
  match s.books.find? (fun b => b.id == id) with
  | none => (Resp.err 404 "Book not found", s)
  | some book0 =>
    let book1 := apply_title data_in book0
    match data_in.author with
    | some aq =>
      match get_or_create_author aq s with
      | none => (Resp.exn, s)
      | some (a, s1) => update_book_rest id data_in { book1 with author := a.id } s1
    | none => update_book_rest id data_in book1 s

/-- delete_book of libapi.py lines 144-154: auth gate, fetch-or-404, delete
all the book's instances, then the book, and return 204. -/
def delete_book (auth : Bool) (id : Nat) (s : Store) : Resp Unit × Store :=
  if !auth then (Resp.err 403 "Please sign in first", s) else
  match s.books.find? (fun b => b.id == id) with
  | none => (Resp.err 404 "Book not found", s)
  | some _ =>
    let s1 := { s with instances := s.instances.filter (fun i => !(i.book == id)) }
    (Resp.noContent, { s1 with books := s1.books.filter (fun b => !(b.id == id)) })

/-- Tail of create_book_instance after the embedded Book is resolved: set
the genre association, then create the instance with a null borrower
(libapi.py lines 188-197). -/
def create_book_instance_rest (data_in : BookInstanceSchema) (book : BookRow)
    (s : Store) : Resp BookInstanceRow × Store :=
  match data_in.book.genre with
  | none => (Resp.exn, s)
  | some gs =>
    match resolve_genres gs s with
    | (none, s1) => (Resp.exn, s1)
    | (some gids, s1) =>
      let book2 : BookRow := { book with genre := gids }
      let s2 : Store := { s1 with books := s1.books.map (fun b => if b.id == book.id then book2 else b) }
      let inst : BookInstanceRow :=
        { id := s2.nextInstanceId, book := book2.id
          imprint := data_in.imprint, due_back := data_in.due_back
          status := data_in.status, borrower := none }
      (Resp.ok inst,
        { s2 with instances := s2.instances ++ [inst]
                  nextInstanceId := s2.nextInstanceId + 1 })

/-- create_book_instance of libapi.py lines 172-197: auth gate, nested
get_or_create of the embedded Book (and its Author and Genres), then an
unconditional BookInstance creation that never sets borrower. -/
def create_book_instance (auth : Bool) (data_in : BookInstanceSchema)
    (s : Store) : Resp BookInstanceRow × Store :=
  if !auth then (Resp.err 403 "Please sign in first", s) else
  match data_in.book.author with
  | none => (Resp.exn, s)
  | some aq =>
    match get_or_create_author aq s with
    | none => (Resp.exn, s)
    | some (a, s1) =>
      match s1.books.filter (fun b =>
        b.title == data_in.book.title && b.author == a.id &&
        b.summary == data_in.book.summary && b.isbn == data_in.book.isbn) with
      | [b] => create_book_instance_rest data_in b s1
      | [] =>
        create_book_instance_rest data_in (book_created data_in.book a s1).1
          (book_created data_in.book a s1).2
      | _ => (Resp.exn, s1)

/-- Truthiness-gated first_name overwrite of update_author (lines 277-278). -/
def apply_afn (data_in : AuthorSchemaUpdate) (a : AuthorRow) : AuthorRow :=
  if truthyS data_in.first_name then { a with first_name := oStr data_in.first_name } else a

/-- Truthiness-gated last_name overwrite of update_author (lines 279-280). -/
def apply_aln (data_in : AuthorSchemaUpdate) (a : AuthorRow) : AuthorRow :=
  if truthyS data_in.last_name then { a with last_name := oStr data_in.last_name } else a

/-- Truthiness-gated date_of_birth overwrite of update_author (lines 281-282). -/
def apply_adob (data_in : AuthorSchemaUpdate) (a : AuthorRow) : AuthorRow :=
  if truthyD data_in.date_of_birth then { a with date_of_birth := data_in.date_of_birth } else a

/-- Truthiness-gated date_of_death overwrite of update_author (lines 283-284). -/
def apply_adod (data_in : AuthorSchemaUpdate) (a : AuthorRow) : AuthorRow :=
  if truthyD data_in.date_of_death then { a with date_of_death := data_in.date_of_death } else a

/-- Truthiness-gated imprint overwrite of update_book_instance (lines 209-210). -/
def apply_iimp (data_in : BookInstanceSchemaUpdate) (i : BookInstanceRow) : BookInstanceRow :=
  if truthyS data_in.imprint then { i with imprint := oStr data_in.imprint } else i

/-- Truthiness-gated due_back overwrite of update_book_instance (lines 211-212). -/
def apply_idue (data_in : BookInstanceSchemaUpdate) (i : BookInstanceRow) : BookInstanceRow :=
  if truthyD data_in.due_back then { i with due_back := data_in.due_back } else i

/-- Truthiness-gated status overwrite of update_book_instance (lines 213-214). -/
def apply_istat (data_in : BookInstanceSchemaUpdate) (i : BookInstanceRow) : BookInstanceRow :=
  if truthyS data_in.status then { i with status := oStr data_in.status } else i

/-- update_book_instance of libapi.py lines 200-216: auth gate,
fetch-or-404, truthiness-gated overwrites of imprint, due_back and status
only, then save. -/
def update_book_instance (auth : Bool) (id : Nat)
    (data_in : BookInstanceSchemaUpdate) (s : Store) :
    Resp BookInstanceRow × Store :=
  if !auth then (Resp.err 403 "Please sign in first", s) else
  match s.instances.find? (fun i => i.id == id) with
  | none => (Resp.err 404 "Book instance not found", s)
  | some i0 =>
    let i3 := apply_istat data_in (apply_idue data_in (apply_iimp data_in i0))
    (Resp.ok i3, { s with instances := s.instances.map (fun i => if i.id == id then i3 else i) })

/-- delete_book_instance of libapi.py lines 219-228. -/
def delete_book_instance (auth : Bool) (id : Nat) (s : Store) :
    Resp Unit × Store :=
  if !auth then (Resp.err 403 "Please sign in first", s) else
  match s.instances.find? (fun i => i.id == id) with
  | none => (Resp.err 404 "Book instance not found", s)
  | some _ =>
    (Resp.noContent, { s with instances := s.instances.filter (fun i => !(i.id == id)) })

/-- create_author of libapi.py lines 246-257: unconditional insertion. -/
def create_author (auth : Bool) (data_in : AuthorSchema) (s : Store) :
    Resp AuthorRow × Store :=
  if !auth then (Resp.err 403 "Please sign in first", s) else
  let a : AuthorRow :=
    { id := s.nextAuthorId, first_name := data_in.first_name
      last_name := data_in.last_name, date_of_birth := data_in.date_of_birth
      date_of_death := data_in.date_of_death }
  (Resp.ok a, { s with authors := s.authors ++ [a]
                       nextAuthorId := s.nextAuthorId + 1 })

/-- update_author of libapi.py lines 269-286: auth gate, fetch-or-404,
truthiness-gated field overwrites, save. -/
def update_author (auth : Bool) (id : Nat) (data_in : AuthorSchemaUpdate)
    (s : Store) : Resp AuthorRow × Store :=
  if !auth then (Resp.err 403 "Please sign in first", s) else
  match s.authors.find? (fun a => a.id == id) with
  | none => (Resp.err 404 "Author not found", s)
  | some a0 =>
    let a4 := apply_adod data_in (apply_adob data_in (apply_aln data_in (apply_afn data_in a0)))
    (Resp.ok a4, { s with authors := s.authors.map (fun a => if a.id == id then a4 else a) })

/-- delete_author of libapi.py lines 289-298 (the row's removal; the
foreign-key behaviour of the missing models layer is outside the claims). -/
def delete_author (auth : Bool) (id : Nat) (s : Store) : Resp Unit × Store :=
  if !auth then (Resp.err 403 "Please sign in first", s) else
  match s.authors.find? (fun a => a.id == id) with
  | none => (Resp.err 404 "Author not found", s)
  | some _ =>
    (Resp.noContent, { s with authors := s.authors.filter (fun a => !(a.id == id)) })

/-- create_genre of libapi.py lines 307-312: an unconditional insertion,
with no duplicate-name gating. -/
def create_genre (auth : Bool) (data_in : GenreSchema) (s : Store) :
    Resp GenreRow × Store :=
  if !auth then (Resp.err 403 "Please sign in first", s) else
  let g : GenreRow := { id := s.nextGenreId, name := data_in.name }
  (Resp.ok g, { s with genres := s.genres ++ [g]
                       nextGenreId := s.nextGenreId + 1 })

/-- update_genre of libapi.py lines 324-334: name is required and written
unconditionally. -/
def update_genre (auth : Bool) (id : Nat) (data_in : GenreSchema) (s : Store) :
    Resp GenreRow × Store :=
  if !auth then (Resp.err 403 "Please sign in first", s) else
  match s.genres.find? (fun g => g.id == id) with
  | none => (Resp.err 404 "Genre not found", s)
  | some g0 =>
    let g1 := { g0 with name := data_in.name }
    (Resp.ok g1, { s with genres := s.genres.map (fun g => if g.id == id then g1 else g) })

/-- delete_genre of libapi.py lines 337-346. -/
def delete_genre (auth : Bool) (id : Nat) (s : Store) : Resp Unit × Store :=
  if !auth then (Resp.err 403 "Please sign in first", s) else
  match s.genres.find? (fun g => g.id == id) with
  | none => (Resp.err 404 "Genre not found", s)
  | some _ =>
    (Resp.noContent, { s with genres := s.genres.filter (fun g => !(g.id == id)) })

/-- create_language of libapi.py lines 355-360: unconditional insertion. -/
def create_language (auth : Bool) (data_in : LanguageSchema) (s : Store) :
    Resp LanguageRow × Store :=
  if !auth then (Resp.err 403 "Please sign in first", s) else
  let l : LanguageRow := { id := s.nextLanguageId, name := data_in.name }
  (Resp.ok l, { s with languages := s.languages ++ [l]
                       nextLanguageId := s.nextLanguageId + 1 })

/-- update_language of libapi.py lines 372-382. -/
def update_language (auth : Bool) (id : Nat) (data_in : LanguageSchema)
    (s : Store) : Resp LanguageRow × Store :=
  if !auth then (Resp.err 403 "Please sign in first", s) else
  match s.languages.find? (fun l => l.id == id) with
  | none => (Resp.err 404 "Language not found", s)
  | some l0 =>
    let l1 := { l0 with name := data_in.name }
    (Resp.ok l1, { s with languages := s.languages.map (fun l => if l.id == id then l1 else l) })

/-- delete_language of libapi.py lines 385-394. -/
def delete_language (auth : Bool) (id : Nat) (s : Store) : Resp Unit × Store :=
  if !auth then (Resp.err 403 "Please sign in first", s) else
  match s.languages.find? (fun l => l.id == id) with
  | none => (Resp.err 404 "Language not found", s)
  | some _ =>
    (Resp.noContent, { s with languages := s.languages.filter (fun l => !(l.id == id)) })

/-- Author condition of the books list endpoint (libapi.py lines 78-80):
the book's author row matches when its first or last name contains the
query case-insensitively; the union of the two query sets over the same
base translates to the pointwise disjunction. -/
def bookAuthorMatch (s : Store) (b : BookRow) (q : String) : Bool :=
  match s.authors.find? (fun a => a.id == b.author) with
  | some a => icontains a.first_name q || icontains a.last_name q
  | none => false

/-- Genre condition of the books list endpoint (libapi.py lines 81-82):
some genre of the book has a name containing the query. -/
def bookGenreMatch (s : Store) (b : BookRow) (q : String) : Bool :=
  b.genre.any (fun gid =>
    match s.genres.find? (fun g => g.id == gid) with
    | some g => icontains g.name q
    | none => false)

/-- books of libapi.py lines 73-83: successive narrowing of the query set by
the truthy filters. -/
def books (title author genre : Option String) (s : Store) : List BookRow :=
  let bs := s.books
  let bs := if truthyS title then bs.filter (fun b => icontains b.title (oStr title)) else bs
  let bs := if truthyS author then bs.filter (fun b => bookAuthorMatch s b (oStr author)) else bs
  if truthyS genre then bs.filter (fun b => bookGenreMatch s b (oStr genre)) else bs

/-- Ascending order on optional due dates (SQL NULLs first, as order_by
produces on the backing store). -/
def dueLe (a b : Option Nat) : Bool :=
  match a, b with
  | none, _ => true
  | some _, none => false
  | some x, some y => x ≤ y

/-- Insertion step of the order_by('due_back') sort. -/
def insertByDue (i : BookInstanceRow) :
    List BookInstanceRow → List BookInstanceRow
  | [] => [i]
  | j :: t => if dueLe i.due_back j.due_back then i :: j :: t else j :: insertByDue i t

/-- Stable sort by due_back implementing order_by('due_back'). -/
def sortByDue : List BookInstanceRow → List BookInstanceRow
  | [] => []
  | i :: t => insertByDue i (sortByDue t)

/-- LoanedBooksByUserListView.get_queryset of catalog/views.py lines 71-82:
the caller's own on-loan instances, ordered ascending by due_back. -/
def loaned_books_by_user (user : Nat) (s : Store) : List BookInstanceRow :=
  sortByDue ((s.instances.filter (fun i => i.borrower == some user)).filter
    (fun i => i.status == "o"))

/-- Decidable check that every persisted BookInstance has a null borrower. -/
def borrowers_none (s : Store) : Bool :=
  s.instances.all (fun i => i.borrower == none)

/-! Concrete fixtures used to witness the theorems with hypotheses. -/

/-- Fixture: a Book row with one author and no genres. -/
def wBook : BookRow :=
  { id := 1, title := "T", author := 1, summary := "s", isbn := "i", genre := [] }

/-- Fixture: a store with one book and three instances, two of which
reference the book. -/
def wStoreDel : Store :=
  { emptyStore with
    books := [wBook]
    instances :=
      [⟨10, 1, "im", none, "a", none⟩, ⟨11, 1, "im", none, "o", none⟩,
        ⟨12, 2, "im", none, "a", none⟩]
    nextBookId := 2
    nextInstanceId := 13 }

/-- Fixture: an author natural key. -/
def wAq : AuthorSchema := { first_name := "J", last_name := "Tolkien" }

/-- Fixture: a complete BookSchema body. -/
def wBs : BookSchema :=
  { title := "The Hobbit", author := some wAq, summary := "s", isbn := "i"
    genre := some [⟨"Fantasy"⟩] }

/-- Fixture: a BookSchema body whose only genre is Manga. -/
def wBsM : BookSchema :=
  { title := "B", author := some wAq, summary := "x", isbn := "y"
    genre := some [⟨"Manga"⟩] }

/-- Fixture: an author row. -/
def wAuthorRow : AuthorRow :=
  { id := 1, first_name := "John", last_name := "Tolkien"
    date_of_birth := none, date_of_death := none }

/-- Fixture: a genre row. -/
def wGenreRow : GenreRow := { id := 1, name := "Fantasy" }

/-- Fixture: a book row referencing the fixture author and genre. -/
def wBookRow : BookRow :=
  { id := 1, title := "The Hobbit", author := 1, summary := "s", isbn := "i"
    genre := [1] }

/-- Fixture: a populated store for the query and update witnesses. -/
def wStoreQ : Store :=
  { emptyStore with
    authors := [wAuthorRow]
    genres := [wGenreRow]
    books := [wBookRow]
    nextAuthorId := 2
    nextGenreId := 2
    nextBookId := 2 }

/-- Fixture: a book instance row. -/
def wInstRow : BookInstanceRow :=
  { id := 1, book := 1, imprint := "im", due_back := none, status := "a"
    borrower := none }

/-- Fixture: the query store extended with one instance. -/
def wStoreU : Store :=
  { wStoreQ with instances := [wInstRow], nextInstanceId := 2 }

/-- Fixture: on-loan instances of two different borrowers. -/
def wStoreL : Store :=
  { emptyStore with
    instances :=
      [⟨1, 1, "a", some 5, "o", some 1⟩, ⟨2, 1, "a", some 3, "o", some 1⟩,
        ⟨3, 1, "a", some 4, "o", some 2⟩]
    nextInstanceId := 4 }

/-- Fixture: a BookInstanceSchema body with on-loan status. -/
def wIs : BookInstanceSchema :=
  { id := 99, book := wBs, imprint := "im", due_back := none, status := "o" }

/-- Fixture: the Book row produced by creating wBs on the empty store. -/
def wCreatedBook : BookRow := ⟨1, "The Hobbit", 1, "s", "i", [1]⟩

/-- Fixture: the store produced by creating wBs on the empty store. -/
def wCreatedStore : Store :=
  { authors := [⟨1, "J", "Tolkien", none, none⟩]
    genres := [⟨1, "Fantasy"⟩]
    languages := []
    books := [wCreatedBook]
    instances := []
    nextAuthorId := 2, nextGenreId := 2, nextLanguageId := 1, nextBookId := 2
    nextInstanceId := 1 }

/-! Generic list lemmas used throughout. -/

theorem filter_not_length {α : Type} (p : α → Bool) (l : List α) :
    (l.filter (fun x => !p x)).length + (l.filter p).length = l.length := by
  induction l with
  | nil => simp
  | cons h t ih => cases hp : p h <;> simp [List.filter_cons, hp] <;> omega

theorem find?_isSome_of_mem {α : Type} {p : α → Bool} {l : List α} {x : α}
    (hx : x ∈ l) (hp : p x = true) : ∃ y, l.find? p = some y := by
  induction l with
  | nil => cases hx
  | cons h t ih =>
    cases hh : p h
    · rcases List.mem_cons.mp hx with rfl | hx'
      · rw [hp] at hh; cases hh
      · rcases ih hx' with ⟨y, hy⟩
        exact ⟨y, by simp [List.find?_cons, hh, hy]⟩
    · exact ⟨h, by simp [List.find?_cons, hh]⟩

theorem nodup_map_inj {α β : Type} {f : α → β} (l : List α) :
    (l.map f).Nodup → ∀ x y, x ∈ l → y ∈ l → f x = f y → x = y := by
  induction l with
  | nil => intro _ x y hx; cases hx
  | cons a t ih =>
    intro h x y hx hy hf
    rw [List.map_cons, List.nodup_cons] at h
    obtain ⟨hna, hnd⟩ := h
    rcases List.mem_cons.mp hx with rfl | hx'
    · rcases List.mem_cons.mp hy with rfl | hy'
      · rfl
      · exact absurd (by rw [hf]; exact List.mem_map_of_mem f hy') hna
    · rcases List.mem_cons.mp hy with rfl | hy'
      · exact absurd (by rw [← hf]; exact List.mem_map_of_mem f hx') hna
      · exact ih hnd x y hx' hy' hf

theorem mem_filter_if {α : Type} {c : Bool} {p : α → Bool} {l : List α} {b : α} :
    b ∈ (if c then l.filter p else l) ↔ b ∈ l ∧ (c = true → p b = true) := by
  cases c <;> simp [List.mem_filter]

/-! Characterization of the get_or_create operations. -/

theorem gocg_spec {q : GenreSchema} {s : Store} {r : GenreRow} {s1 : Store}
    (h : get_or_create_genre q s = some (r, s1)) :
    s1.genres.filter (fun g => g.name == q.name) = [r] ∧
    r.name = q.name ∧
    s1.authors = s.authors ∧ s1.books = s.books ∧
    s1.instances = s.instances ∧ s1.languages = s.languages ∧
    s1.nextBookId = s.nextBookId ∧ s1.nextAuthorId = s.nextAuthorId ∧
    s1.nextInstanceId = s.nextInstanceId ∧
    (∀ n, n ≠ q.name →
      s1.genres.filter (fun g => g.name == n) = s.genres.filter (fun g => g.name == n)) ∧
    (s.genres.filter (fun g => g.name == q.name) ≠ [] → s1 = s) := by
  unfold get_or_create_genre at h
  cases hf : s.genres.filter (fun g => g.name == q.name) with
  | nil =>
    rw [hf] at h
    simp only [Option.some.injEq, Prod.mk.injEq] at h
    obtain ⟨hr, hs⟩ := h
    subst hr; subst hs
    refine ⟨?_, rfl, rfl, rfl, rfl, rfl, rfl, rfl, rfl, ?_, ?_⟩
    · simp [List.filter_append, hf, List.filter_cons]
    · intro n hn
      simp [List.filter_append, List.filter_cons, hn]
      exact fun hq => hn hq.symm
    · intro hne; exact absurd rfl hne
  | cons g t =>
    cases t with
    | nil =>
      rw [hf] at h
      simp only [Option.some.injEq, Prod.mk.injEq] at h
      obtain ⟨hr, hs⟩ := h
      have hg : g ∈ s.genres.filter (fun x => x.name == q.name) := by
        rw [hf]; exact List.mem_singleton.mpr rfl
      have hgn : g.name = q.name := beq_iff_eq.mp (List.mem_filter.mp hg).2
      refine ⟨?_, ?_, ?_, ?_, ?_, ?_, ?_, ?_, ?_, ?_, ?_⟩ <;>
        first
        | (rw [← hs, ← hr]; exact hf)
        | (rw [← hr]; exact hgn)
        | (intro _ _; rw [← hs])
        | (intro _; rw [← hs])
        | (rw [← hs])
    | cons g2 t2 =>
      rw [hf] at h
      cases h

theorem goca_spec {q : AuthorSchema} {s : Store} {a : AuthorRow} {s1 : Store}
    (h : get_or_create_author q s = some (a, s1)) :
    s1.authors.filter (authorKeyMatch q) = [a] ∧
    s1.genres = s.genres ∧ s1.books = s.books ∧
    s1.instances = s.instances ∧ s1.languages = s.languages ∧
    s1.nextBookId = s.nextBookId ∧ s1.nextGenreId = s.nextGenreId ∧
    s1.nextInstanceId = s.nextInstanceId ∧
    (s.authors.filter (authorKeyMatch q) ≠ [] → s1 = s) := by
  unfold get_or_create_author at h
  cases hf : s.authors.filter (authorKeyMatch q) with
  | nil =>
    rw [hf] at h
    simp only [Option.some.injEq, Prod.mk.injEq] at h
    obtain ⟨hr, hs⟩ := h
    subst hr; subst hs
    refine ⟨?_, rfl, rfl, rfl, rfl, rfl, rfl, rfl, ?_⟩
    · simp only [List.filter_append, hf, List.nil_append]
      have : authorKeyMatch q
          { id := s.nextAuthorId, first_name := q.first_name
            last_name := q.last_name, date_of_birth := q.date_of_birth
            date_of_death := q.date_of_death } = true := by
        simp [authorKeyMatch]
      simp [List.filter_cons, this]
    · intro hne; exact absurd rfl hne
  | cons g t =>
    cases t with
    | nil =>
      rw [hf] at h
      simp only [Option.some.injEq, Prod.mk.injEq] at h
      obtain ⟨hr, hs⟩ := h
      subst hr; subst hs
      exact ⟨hf, rfl, rfl, rfl, rfl, rfl, rfl, rfl, fun _ => rfl⟩
    | cons g2 t2 =>
      rw [hf] at h
      cases h

theorem goca_of_singleton {q : AuthorSchema} {s : Store} {a : AuthorRow}
    (hf : s.authors.filter (authorKeyMatch q) = [a]) :
    get_or_create_author q s = some (a, s) := by
  unfold get_or_create_author
  rw [hf]

/-- Characterization of a successful genre-list resolution: frame over the
other tables, one output id per input genre, exactly one persisted row per
resolved name, and preservation of every name that already had matches. -/
theorem rg_spec :
    ∀ (gs : List GenreSchema) (s : Store) (ids : List Nat) (s' : Store),
    resolve_genres gs s = (some ids, s') →
    s'.authors = s.authors ∧ s'.books = s.books ∧
    s'.instances = s.instances ∧ s'.languages = s.languages ∧
    s'.nextBookId = s.nextBookId ∧ s'.nextAuthorId = s.nextAuthorId ∧
    s'.nextInstanceId = s.nextInstanceId ∧
    ids.length = gs.length ∧
    (∀ n, s.genres.filter (fun g => g.name == n) ≠ [] →
      s'.genres.filter (fun g => g.name == n) = s.genres.filter (fun g => g.name == n)) ∧
    (∀ gq ∈ gs, ∃ g, s'.genres.filter (fun x => x.name == gq.name) = [g] ∧ g.id ∈ ids) ∧
    (∀ gid ∈ ids, ∃ gq, gq ∈ gs ∧ ∃ g,
      s'.genres.filter (fun x => x.name == gq.name) = [g] ∧ g.id = gid) := by
  intro gs
  induction gs with
  | nil =>
    intro s ids s' h
    simp only [resolve_genres, Prod.mk.injEq, Option.some.injEq] at h
    obtain ⟨h1, h2⟩ := h
    subst h1; subst h2
    refine ⟨rfl, rfl, rfl, rfl, rfl, rfl, rfl, rfl, fun _ _ => rfl, ?_, ?_⟩
    · intro gq hgq; cases hgq
    · intro gid hgid; cases hgid
  | cons gq gs ih =>
    intro s ids s' h
    cases hg : get_or_create_genre gq s with
    | none => simp [resolve_genres, hg] at h
    | some rs1 =>
      obtain ⟨r, s1⟩ := rs1
      cases hrest : resolve_genres gs s1 with
      | mk o s2 =>
        cases o with
        | none => simp [resolve_genres, hg, hrest] at h
        | some ids' =>
          simp only [resolve_genres, hg, hrest, Prod.mk.injEq,
            Option.some.injEq] at h
          obtain ⟨hids, hs2⟩ := h
          subst hids; subst hs2
          obtain ⟨gf, gname, gau, gbk, gin, gla, gnb, gna, gni, gother, gne⟩ :=
            gocg_spec hg
          obtain ⟨iau, ibk, iin, ila, inb, ina, ini, ilen, ipres, isound, imem⟩ :=
            ih s1 ids' s2 hrest
          have step : ∀ n, s.genres.filter (fun g => g.name == n) ≠ [] →
              s1.genres.filter (fun g => g.name == n) =
                s.genres.filter (fun g => g.name == n) := by
            intro n hne
            by_cases hn : n = gq.name
            · subst hn; rw [gne hne]
            · exact gother n hn
          have pres : ∀ n, s.genres.filter (fun g => g.name == n) ≠ [] →
              s2.genres.filter (fun g => g.name == n) =
                s.genres.filter (fun g => g.name == n) := by
            intro n hne
            have h1 := step n hne
            have h2 := ipres n (by rw [h1]; exact hne)
            rw [h2, h1]
          have head_filter : s2.genres.filter (fun x => x.name == gq.name) = [r] := by
            have := ipres gq.name (by rw [gf]; exact fun hc => List.noConfusion hc)
            rw [this, gf]
          refine ⟨?_, ?_, ?_, ?_, ?_, ?_, ?_, ?_, pres, ?_, ?_⟩
          · rw [iau, gau]
          · rw [ibk, gbk]
          · rw [iin, gin]
          · rw [ila, gla]
          · rw [inb, gnb]
          · rw [ina, gna]
          · rw [ini, gni]
          · simp [ilen]
          · intro gq' hin
            rcases List.mem_cons.mp hin with rfl | hin'
            · exact ⟨r, head_filter, List.mem_cons_self _ _⟩
            · obtain ⟨g, hfil, hmem⟩ := isound gq' hin'
              exact ⟨g, hfil, List.mem_cons_of_mem _ hmem⟩
          · intro gid hgid
            rcases List.mem_cons.mp hgid with rfl | hgid'
            · exact ⟨gq, List.mem_cons_self _ _, r, head_filter, rfl⟩
            · obtain ⟨gq', hgq', g, hfil, heq⟩ := imem gid hgid'
              exact ⟨gq', List.mem_cons_of_mem _ hgq', g, hfil, heq⟩

/-! Claim theorems. -/

/-- C1: every mutating JSON call (create, update, delete of Book,
BookInstance, Author, Genre, Language) made by an unauthenticated caller
returns the 403 response with the sign-in message body and leaves the
store completely unchanged, the authentication check preceding every
database read or write. -/
theorem unauthenticated_mutation_rejected (s : Store) (idN : Nat)
    (ab : AuthorSchema) (au : AuthorSchemaUpdate) (bb : BookSchema)
    (bu : BookSchemaUpdate) (ib : BookInstanceSchema)
    (iu : BookInstanceSchemaUpdate) (g : GenreSchema) (l : LanguageSchema) :
    create_book false bb s = (Resp.err 403 "Please sign in first", s) ∧
    update_book false idN bu s = (Resp.err 403 "Please sign in first", s) ∧
    delete_book false idN s = (Resp.err 403 "Please sign in first", s) ∧
    create_book_instance false ib s = (Resp.err 403 "Please sign in first", s) ∧
    update_book_instance false idN iu s = (Resp.err 403 "Please sign in first", s) ∧
    delete_book_instance false idN s = (Resp.err 403 "Please sign in first", s) ∧
    create_author false ab s = (Resp.err 403 "Please sign in first", s) ∧
    update_author false idN au s = (Resp.err 403 "Please sign in first", s) ∧
    delete_author false idN s = (Resp.err 403 "Please sign in first", s) ∧
    create_genre false g s = (Resp.err 403 "Please sign in first", s) ∧
    update_genre false idN g s = (Resp.err 403 "Please sign in first", s) ∧
    delete_genre false idN s = (Resp.err 403 "Please sign in first", s) ∧
    create_language false l s = (Resp.err 403 "Please sign in first", s) ∧
    update_language false idN l s = (Resp.err 403 "Please sign in first", s) ∧
    delete_language false idN s = (Resp.err 403 "Please sign in first", s) :=
  ⟨rfl, rfl, rfl, rfl, rfl, rfl, rfl, rfl, rfl, rfl, rfl, rfl, rfl, rfl, rfl⟩

/-- C6: every authenticated update operation on an id that does not resolve
to an existing row in that operation's own table returns the 404 NotFound
response and leaves the store completely unchanged, for all five
entities. -/
theorem update_missing_id_notfound (s : Store) (id : Nat)
    (bu : BookSchemaUpdate) (iu : BookInstanceSchemaUpdate)
    (au : AuthorSchemaUpdate) (g : GenreSchema) (l : LanguageSchema) :
    (s.books.find? (fun b => b.id == id) = none →
      update_book true id bu s = (Resp.err 404 "Book not found", s)) ∧
    (s.instances.find? (fun i => i.id == id) = none →
      update_book_instance true id iu s =
        (Resp.err 404 "Book instance not found", s)) ∧
    (s.authors.find? (fun a => a.id == id) = none →
      update_author true id au s = (Resp.err 404 "Author not found", s)) ∧
    (s.genres.find? (fun x => x.id == id) = none →
      update_genre true id g s = (Resp.err 404 "Genre not found", s)) ∧
    (s.languages.find? (fun x => x.id == id) = none →
      update_language true id l s = (Resp.err 404 "Language not found", s)) := by
  refine ⟨fun hb => ?_, fun hi => ?_, fun ha => ?_, fun hg => ?_,
    fun hl => ?_⟩
  · simp [update_book, hb]
  · simp [update_book_instance, hi]
  · simp [update_author, ha]
  · simp [update_genre, hg]
  · simp [update_language, hl]

/-- Witness for C6 at concrete inputs: id 7 resolves in no table of the
empty store, and id 1 has no Language row in the populated fixture store
even though a Book, an Author and a Genre with id 1 exist there — each
update still returns 404 leaving the store unchanged. -/
theorem update_missing_id_notfound_witness :
    update_book true 7 {} emptyStore = (Resp.err 404 "Book not found", emptyStore) ∧
    update_book_instance true 7 {} emptyStore =
      (Resp.err 404 "Book instance not found", emptyStore) ∧
    update_author true 7 {} emptyStore = (Resp.err 404 "Author not found", emptyStore) ∧
    update_genre true 7 ⟨"g"⟩ emptyStore = (Resp.err 404 "Genre not found", emptyStore) ∧
    update_language true 1 ⟨"l"⟩ wStoreU =
      (Resp.err 404 "Language not found", wStoreU) :=
  ⟨(update_missing_id_notfound emptyStore 7 {} {} {} ⟨"g"⟩ ⟨"l"⟩).1 rfl,
   (update_missing_id_notfound emptyStore 7 {} {} {} ⟨"g"⟩ ⟨"l"⟩).2.1 rfl,
   (update_missing_id_notfound emptyStore 7 {} {} {} ⟨"g"⟩ ⟨"l"⟩).2.2.1 rfl,
   (update_missing_id_notfound emptyStore 7 {} {} {} ⟨"g"⟩ ⟨"l"⟩).2.2.2.1 rfl,
   (update_missing_id_notfound wStoreU 1 {} {} {} ⟨"g"⟩ ⟨"l"⟩).2.2.2.2 rfl⟩

/-- C9: an authenticated Create-Book whose body omits the author or the
genre field raises an unhandled error instead of returning either of its
declared 200 or 403 responses, and the 200 success branch is reachable
only when both author and genre are present. -/
theorem create_book_missing_fields_exn (s : Store) (d : BookSchema) :
    (d.author = none → (create_book true d s).1 = Resp.exn) ∧
    (d.genre = none → (create_book true d s).1 = Resp.exn) ∧
    (∀ b, (create_book true d s).1 = Resp.ok b → d.author ≠ none ∧ d.genre ≠ none) := by
  have hA : d.author = none → (create_book true d s).1 = Resp.exn := by
    intro h; simp [create_book, h]
  have hG : d.genre = none → (create_book true d s).1 = Resp.exn := by
    intro h
    cases ha : d.author with
    | none => simp [create_book, ha]
    | some aq =>
      cases hg : get_or_create_author aq s with
      | none => simp [create_book, ha, hg]
      | some p =>
        obtain ⟨a, s1⟩ := p
        simp [create_book, ha, hg, h]
  refine ⟨hA, hG, ?_⟩
  intro b hok
  constructor
  · intro hn; rw [hA hn] at hok; simp at hok
  · intro hn; rw [hG hn] at hok; simp at hok

/-- Witness for C9 at a concrete input: omitting the author field from an
authenticated Create-Book on the empty store ends in the unhandled-error
outcome. -/
theorem create_book_missing_fields_exn_witness :
    (create_book true { title := "t", summary := "s", isbn := "i" } emptyStore).1 =
      Resp.exn :=
  (create_book_missing_fields_exn emptyStore
    { title := "t", summary := "s", isbn := "i" }).1 rfl

/-- C5: direct Create-Genre and Create-Language always insert a new row for
every authenticated call, even when a row with the same name exists, so
creating Genre Manga twice directly leaves two distinct rows; nested genre
resolution during Book creation deduplicates instead, so two Books
referencing genre name Manga leave exactly one Genre row. -/
theorem direct_create_never_dedups :
    (∀ (s : Store) (g : GenreSchema),
      (create_genre true g s).2.genres.length = s.genres.length + 1) ∧
    (∀ (s : Store) (l : LanguageSchema),
      (create_language true l s).2.languages.length = s.languages.length + 1) ∧
    (create_genre true ⟨"Manga"⟩ (create_genre true ⟨"Manga"⟩ emptyStore).2).2.genres =
      [⟨1, "Manga"⟩, ⟨2, "Manga"⟩] ∧
    (create_book true wBsM (create_book true wBsM emptyStore).2).2.genres =
      [⟨1, "Manga"⟩] := by
  refine ⟨?_, ?_, ?_, ?_⟩
  · intro s g; simp [create_genre]
  · intro s l; simp [create_language]
  · decide
  · decide

/-- Auxiliary: find? returns the head of the filtered list. -/
theorem find?_eq_head_filter {α : Type} (p : α → Bool) (l : List α) :
    l.find? p = (l.filter p).head? := by
  induction l with
  | nil => rfl
  | cons h t ih =>
    cases hp : p h
    · rw [List.find?_cons_of_neg _ (by simp [hp]), List.filter_cons,
        if_neg (by simp [hp]), ih]
    · rw [List.find?_cons_of_pos _ hp, List.filter_cons, if_pos hp,
        List.head?_cons]

/-- C4: an authenticated Delete-Book on an existing Book with N associated
BookInstances removes the N instances and then the Book, so the total row
count drops by exactly N+1, no instance referencing the id remains, no
other row is affected, and the call returns 204 with no body. -/
theorem delete_book_cascade (s : Store) (id : Nat) (bk : BookRow)
    (hone : s.books.filter (fun b => b.id == id) = [bk]) :
    delete_book true id s =
      (Resp.noContent,
        { s with instances := s.instances.filter (fun i => !(i.book == id))
                 books := s.books.filter (fun b => !(b.id == id)) }) ∧
    (∀ i ∈ (delete_book true id s).2.instances, ¬ i.book = id) ∧
    (delete_book true id s).2.books.length + 1 = s.books.length ∧
    totalRows (delete_book true id s).2 +
      (s.instances.filter (fun i => i.book == id)).length + 1 = totalRows s ∧
    (delete_book true id s).2.authors = s.authors ∧
    (delete_book true id s).2.genres = s.genres ∧
    (delete_book true id s).2.languages = s.languages := by
  have hfind : s.books.find? (fun b => b.id == id) = some bk := by
    rw [find?_eq_head_filter, hone]; rfl
  have hdel : delete_book true id s =
      (Resp.noContent,
        { s with instances := s.instances.filter (fun i => !(i.book == id))
                 books := s.books.filter (fun b => !(b.id == id)) }) := by
    simp [delete_book, hfind]
  have hblen : (s.books.filter (fun b => !(b.id == id))).length + 1 =
      s.books.length := by
    have h := filter_not_length (fun b => b.id == id) s.books
    rw [hone] at h
    simpa using h
  have hilen := filter_not_length (fun i => i.book == id) s.instances
  refine ⟨hdel, ?_, ?_, ?_, ?_, ?_, ?_⟩
  · intro i hi
    rw [hdel] at hi
    simp at hi
    exact hi.2
  · rw [hdel]; exact hblen
  · rw [hdel]; simp only [totalRows]; omega
  · rw [hdel]
  · rw [hdel]
  · rw [hdel]

/-- Witness for C4 at a concrete input: deleting book 1 from the fixture
store with two attached instances drops exactly three rows. -/
theorem delete_book_cascade_witness :
    (∀ i ∈ (delete_book true 1 wStoreDel).2.instances, ¬ i.book = 1) ∧
    totalRows (delete_book true 1 wStoreDel).2 +
      (wStoreDel.instances.filter (fun i => i.book == 1)).length + 1 =
        totalRows wStoreDel :=
  ⟨(delete_book_cascade wStoreDel 1 wBook (by decide)).2.1,
   (delete_book_cascade wStoreDel 1 wBook (by decide)).2.2.2.1⟩

/-- Auxiliary: the author condition of the books endpoint, spelled as an
existential over the author table (requires unique author ids, as the
foreign key join provides). -/
theorem bookAuthorMatch_iff {s : Store}
    (hA : (s.authors.map (fun a => a.id)).Nodup) (b : BookRow) (q : String) :
    bookAuthorMatch s b q = true ↔
      ∃ ar, ar ∈ s.authors ∧ ar.id = b.author ∧
        (icontains ar.first_name q = true ∨ icontains ar.last_name q = true) := by
  unfold bookAuthorMatch
  constructor
  · intro h
    cases hf : s.authors.find? (fun a => a.id == b.author) with
    | none => rw [hf] at h; cases h
    | some a =>
      rw [hf] at h
      have hfa := List.find?_some hf
      refine ⟨a, List.mem_of_find?_eq_some hf, beq_iff_eq.mp hfa, ?_⟩
      simpa using h
  · rintro ⟨ar, hmem, hid, hic⟩
    obtain ⟨y, hy⟩ :=
      find?_isSome_of_mem (p := fun x => x.id == b.author) hmem (by simp [hid])
    have hyb := List.find?_some hy
    have hyid : y.id = b.author := beq_iff_eq.mp hyb
    have hya : y = ar :=
      nodup_map_inj s.authors hA y ar (List.mem_of_find?_eq_some hy) hmem
        (by rw [hyid, hid])
    rw [hy, hya]
    simpa using hic

/-- Auxiliary: the genre condition of the books endpoint, spelled as an
existential over the genre table (requires unique genre ids). -/
theorem bookGenreMatch_iff {s : Store}
    (hG : (s.genres.map (fun g => g.id)).Nodup) (b : BookRow) (q : String) :
    bookGenreMatch s b q = true ↔
      ∃ gr, gr ∈ s.genres ∧ gr.id ∈ b.genre ∧ icontains gr.name q = true := by
  unfold bookGenreMatch
  rw [List.any_eq_true]
  constructor
  · rintro ⟨gid, hgid, hmatch⟩
    cases hf : s.genres.find? (fun g => g.id == gid) with
    | none => rw [hf] at hmatch; cases hmatch
    | some g =>
      rw [hf] at hmatch
      have hfg := List.find?_some hf
      have hgidg : g.id = gid := beq_iff_eq.mp hfg
      refine ⟨g, List.mem_of_find?_eq_some hf, by rw [hgidg]; exact hgid, ?_⟩
      simpa using hmatch
  · rintro ⟨gr, hmem, hgid, hic⟩
    refine ⟨gr.id, hgid, ?_⟩
    obtain ⟨y, hy⟩ :=
      find?_isSome_of_mem (p := fun x => x.id == gr.id) hmem (by simp)
    have hyb := List.find?_some hy
    have hyid : y.id = gr.id := beq_iff_eq.mp hyb
    have hyg : y = gr :=
      nodup_map_inj s.genres hG y gr (List.mem_of_find?_eq_some hy) hmem hyid
    rw [hy, hyg]
    simpa using hic

/-- C3: for every store with well-formed (unique) author and genre ids and
every combination of the optional title, author and genre parameters, the
Book list endpoint returns exactly the books satisfying the conjunction of
the active filters: title and genre are case-insensitive substring matches
(genre against genre name), the author filter is a disjunction of
case-insensitive substring matches on the author's first and last name,
and with no parameter supplied every book is returned. -/
theorem books_filter_spec (s : Store) (t a g : Option String) (b : BookRow)
    (hA : (s.authors.map (fun x => x.id)).Nodup)
    (hG : (s.genres.map (fun x => x.id)).Nodup) :
    b ∈ books t a g s ↔
      b ∈ s.books ∧
      (truthyS t = true → icontains b.title (oStr t) = true) ∧
      (truthyS a = true → ∃ ar, ar ∈ s.authors ∧ ar.id = b.author ∧
        (icontains ar.first_name (oStr a) = true ∨
         icontains ar.last_name (oStr a) = true)) ∧
      (truthyS g = true → ∃ gr, gr ∈ s.genres ∧ gr.id ∈ b.genre ∧
        icontains gr.name (oStr g) = true) := by
  simp only [books]
  rw [mem_filter_if, mem_filter_if, mem_filter_if]
  rw [bookAuthorMatch_iff hA b (oStr a), bookGenreMatch_iff hG b (oStr g)]
  tauto

/-- Witness for C3 at a concrete input: in the fixture store the Hobbit
book is returned for the filter combination and satisfies the
conjunction. -/
theorem books_filter_spec_witness :
    wBookRow ∈ books (some "hob") (some "tolk") (some "FAN") wStoreQ := by
  have h := books_filter_spec wStoreQ (some "hob") (some "tolk") (some "FAN")
    wBookRow (by decide) (by decide)
  exact h.mpr (by decide)

/-- Auxiliary: the due-date order is total. -/
theorem dueLe_total (a b : Option Nat) : dueLe a b = true ∨ dueLe b a = true := by
  cases a <;> cases b <;> simp [dueLe]
  omega

/-- Auxiliary: the due-date order is transitive. -/
theorem dueLe_trans {a b c : Option Nat} (h1 : dueLe a b = true)
    (h2 : dueLe b c = true) : dueLe a c = true := by
  cases a <;> cases b <;> cases c <;> simp [dueLe] at *
  omega

/-- Auxiliary: membership through the insertion step of the due-date sort. -/
theorem mem_insertByDue {x i : BookInstanceRow} {l : List BookInstanceRow} :
    x ∈ insertByDue i l ↔ x = i ∨ x ∈ l := by
  induction l with
  | nil => simp [insertByDue]
  | cons j t ih =>
    unfold insertByDue
    by_cases h : dueLe i.due_back j.due_back = true
    · rw [if_pos h]; simp
    · rw [if_neg h]; simp [ih]; tauto

/-- Auxiliary: the due-date sort is a permutation in the membership sense. -/
theorem mem_sortByDue {x : BookInstanceRow} {l : List BookInstanceRow} :
    x ∈ sortByDue l ↔ x ∈ l := by
  induction l with
  | nil => simp [sortByDue]
  | cons i t ih =>
    rw [sortByDue, mem_insertByDue, ih, List.mem_cons]

/-- Auxiliary: insertion preserves pairwise due-date sortedness. -/
theorem pairwise_insertByDue {i : BookInstanceRow} {l : List BookInstanceRow}
    (h : l.Pairwise (fun a b => dueLe a.due_back b.due_back = true)) :
    (insertByDue i l).Pairwise
      (fun a b => dueLe a.due_back b.due_back = true) := by
  induction l with
  | nil => simp [insertByDue]
  | cons j t ih =>
    rw [List.pairwise_cons] at h
    obtain ⟨hj, ht⟩ := h
    unfold insertByDue
    by_cases hd : dueLe i.due_back j.due_back = true
    · rw [if_pos hd, List.pairwise_cons]
      constructor
      · intro a ha
        rcases List.mem_cons.mp ha with rfl | ha'
        · exact hd
        · exact dueLe_trans hd (hj a ha')
      · rw [List.pairwise_cons]; exact ⟨hj, ht⟩
    · rw [if_neg hd, List.pairwise_cons]
      constructor
      · intro a ha
        rcases mem_insertByDue.mp ha with rfl | ha'
        · rcases dueLe_total a.due_back j.due_back with h1 | h1
          · exact absurd h1 hd
          · exact h1
        · exact hj a ha'
      · exact ih ht

/-- Auxiliary: the due-date sort is pairwise sorted. -/
theorem pairwise_sortByDue (l : List BookInstanceRow) :
    (sortByDue l).Pairwise (fun a b => dueLe a.due_back b.due_back = true) := by
  induction l with
  | nil => simp [sortByDue]
  | cons i t ih => rw [sortByDue]; exact pairwise_insertByDue ih

/-- C8: for every authenticated user the mybooks view returns exactly the
BookInstances whose borrower equals the caller and whose status is on
loan, ordered ascending by due_back, and an instance borrowed by one user
never appears in a different user's results. -/
theorem mybooks_scope_and_order (s : Store) (u u2 : Nat)
    (i : BookInstanceRow) :
    (i ∈ loaned_books_by_user u s ↔
      i ∈ s.instances ∧ i.borrower = some u ∧ i.status = "o") ∧
    (loaned_books_by_user u s).Pairwise
      (fun a b => dueLe a.due_back b.due_back = true) ∧
    (u2 ≠ u → i ∈ loaned_books_by_user u s → i ∉ loaned_books_by_user u2 s) := by
  have hmem : ∀ (v : Nat) (j : BookInstanceRow), j ∈ loaned_books_by_user v s ↔
      j ∈ s.instances ∧ j.borrower = some v ∧ j.status = "o" := by
    intro v j
    unfold loaned_books_by_user
    rw [mem_sortByDue]
    simp [List.mem_filter, and_assoc]
    tauto
  refine ⟨hmem u i, ?_, ?_⟩
  · unfold loaned_books_by_user; exact pairwise_sortByDue _
  · intro hne hi hi2
    have h1 := (hmem u i).mp hi
    have h2 := (hmem u2 i).mp hi2
    have : some u = some u2 := h1.2.1.symm.trans h2.2.1
    exact hne (Option.some.inj this).symm

/-- Witness for C8 at a concrete input: user 1's earliest-due on-loan
instance is listed for user 1 and never for user 2. -/
theorem mybooks_scope_and_order_witness :
    (⟨2, 1, "a", some 3, "o", some 1⟩ : BookInstanceRow) ∈
      loaned_books_by_user 1 wStoreL ∧
    (⟨2, 1, "a", some 3, "o", some 1⟩ : BookInstanceRow) ∉
      loaned_books_by_user 2 wStoreL :=
  ⟨(mybooks_scope_and_order wStoreL 1 2 ⟨2, 1, "a", some 3, "o", some 1⟩).1.mpr
      (by decide),
   (mybooks_scope_and_order wStoreL 1 2 ⟨2, 1, "a", some 3, "o", some 1⟩).2.2
      (by decide)
      ((mybooks_scope_and_order wStoreL 1 2 ⟨2, 1, "a", some 3, "o", some 1⟩).1.mpr
        (by decide))⟩

/-- Auxiliary: the created Book row and the insertion store of
book_created, by unfolding. -/
theorem book_created_fst (d : BookSchema) (a : AuthorRow) (s : Store) :
    (book_created d a s).1 =
      { id := s.nextBookId, title := d.title, author := a.id
        summary := d.summary, isbn := d.isbn, genre := [] } := rfl

/-- Auxiliary: book_created leaves the author table unchanged. -/
theorem book_created_authors (d : BookSchema) (a : AuthorRow) (s : Store) :
    (book_created d a s).2.authors = s.authors := rfl

/-- Auxiliary: book_created leaves the genre table unchanged. -/
theorem book_created_genres (d : BookSchema) (a : AuthorRow) (s : Store) :
    (book_created d a s).2.genres = s.genres := rfl

/-- Auxiliary: book_created leaves the instance table unchanged. -/
theorem book_created_instances (d : BookSchema) (a : AuthorRow) (s : Store) :
    (book_created d a s).2.instances = s.instances := rfl

/-- Auxiliary: book_created leaves the language table unchanged. -/
theorem book_created_languages (d : BookSchema) (a : AuthorRow) (s : Store) :
    (book_created d a s).2.languages = s.languages := rfl

/-- Auxiliary: book_created appends the new row to the book table. -/
theorem book_created_books (d : BookSchema) (a : AuthorRow) (s : Store) :
    (book_created d a s).2.books = s.books ++ [(book_created d a s).1] := rfl

/-- Auxiliary: inversion of a successful authenticated create_book into its
author step, Book row creation, and genre resolution. -/
theorem create_book_ok_inv {d : BookSchema} {s : Store} {b : BookRow}
    {s' : Store} (h : create_book true d s = (Resp.ok b, s')) :
    ∃ aq a s1 gs gids s3,
      d.author = some aq ∧
      get_or_create_author aq s = some (a, s1) ∧
      d.genre = some gs ∧
      resolve_genres gs (book_created d a s1).2 = (some gids, s3) ∧
      b = { id := s1.nextBookId, title := d.title, author := a.id
            summary := d.summary, isbn := d.isbn, genre := gids } ∧
      s' = { s3 with books := s3.books.map (fun x => if x.id == s1.nextBookId then b else x) } := by
  cases ha : d.author with
  | none => simp [create_book, ha] at h
  | some aq =>
    cases hga : get_or_create_author aq s with
    | none => simp [create_book, ha, hga] at h
    | some p =>
      obtain ⟨a, s1⟩ := p
      cases hg : d.genre with
      | none => simp [create_book, ha, hga, hg] at h
      | some gs =>
        cases hr : resolve_genres gs (book_created d a s1).2 with
        | mk o s3 =>
          cases o with
          | none => simp [create_book, ha, hga, hg, hr] at h
          | some gids =>
            simp only [create_book, ha, hga, hg, hr, Bool.not_true,
              Bool.false_eq_true, if_false, Prod.mk.injEq, Resp.ok.injEq] at h
            exact ⟨aq, a, s1, gs, gids, s3, rfl, hga, rfl, hr, h.1.symm,
              by rw [← h.2, ← h.1]; rfl⟩

/-- C2: nested Author/Genre resolution during an authenticated Create-Book
is idempotent get-or-create by exact natural key: the returned Book's
author matches exactly one persisted Author row resolved on the four-field
key and each supplied genre exactly one Genre row resolved on name, rows
being created only when no exact match pre-exists; in particular a second
Create-Book with an identical author natural key yields no second Author
row. -/
theorem create_book_nested_upsert (s : Store) (d : BookSchema)
    (aq : AuthorSchema) (b : BookRow) (s' : Store)
    (ha : d.author = some aq)
    (hok : create_book true d s = (Resp.ok b, s')) :
    (∃ a, s'.authors.filter (authorKeyMatch aq) = [a] ∧ b.author = a.id) ∧
    (s.authors.filter (authorKeyMatch aq) ≠ [] → s'.authors = s.authors) ∧
    (∀ gs, d.genre = some gs → ∀ gq ∈ gs,
      ∃ g, s'.genres.filter (fun x => x.name == gq.name) = [g] ∧
        g.id ∈ b.genre) ∧
    (∀ n, s.genres.filter (fun x => x.name == n) ≠ [] →
      s'.genres.filter (fun x => x.name == n) =
        s.genres.filter (fun x => x.name == n)) ∧
    (∀ (d2 : BookSchema) (b2 : BookRow) (s2 : Store), d2.author = some aq →
      create_book true d2 s' = (Resp.ok b2, s2) →
      s2.authors = s'.authors ∧ b2.author = b.author) := by
  obtain ⟨aq', a, s1, gs, gids, s3, ha', hga, hg, hr, hb, hs'⟩ :=
    create_book_ok_inv hok
  rw [ha] at ha'
  injection ha' with haa
  subst haa
  obtain ⟨af, agen, abk, ains, ala, anb, ang, ani, ane⟩ := goca_spec hga
  obtain ⟨rau, rbk, rin, rla, rnb, rna, rni, rlen, rpres, rsound, rmem⟩ :=
    rg_spec gs (book_created d a s1).2 gids s3 hr
  have hsA : s'.authors = s3.authors := by rw [hs']
  have hsG : s'.genres = s3.genres := by rw [hs']
  have h3A : s3.authors = s1.authors := by rw [rau, book_created_authors]
  have hfa' : s'.authors.filter (authorKeyMatch aq) = [a] := by
    rw [hsA, h3A]; exact af
  refine ⟨⟨a, hfa', by rw [hb]⟩, ?_, ?_, ?_, ?_⟩
  · intro hne
    have h1s := ane hne
    rw [hsA, h3A, h1s]
  · intro gs2 hgs2 gq hgq
    rw [hg] at hgs2
    injection hgs2 with hgg
    subst hgg
    obtain ⟨g, hgf, hgm⟩ := rsound gq hgq
    exact ⟨g, by rw [hsG]; exact hgf, by rw [hb]; exact hgm⟩
  · intro n hne
    have hbg : (book_created d a s1).2.genres = s.genres := by
      rw [book_created_genres, agen]
    have hne2 : (book_created d a s1).2.genres.filter (fun x => x.name == n) ≠ [] := by
      rw [hbg]; exact hne
    have hpr := rpres n hne2
    rw [hsG, hpr, hbg]
  · intro d2 b2 s2 hd2 hok2
    obtain ⟨aq2, a2, s12, gs2, gids2, s32, ha2, hga2, hg2, hr2, hb2, hs2⟩ :=
      create_book_ok_inv hok2
    rw [hd2] at ha2
    injection ha2 with haa2
    subst haa2
    obtain ⟨af2, agen2, abk2, ains2, ala2, anb2, ang2, ani2, ane2⟩ :=
      goca_spec hga2
    have h12 : s12 = s' :=
      ane2 (by rw [hfa']; exact fun hc => List.noConfusion hc)
    have hfa2 : s12.authors.filter (authorKeyMatch aq) = [a2] := af2
    rw [h12, hfa'] at hfa2
    injection hfa2 with haeq hnil
    obtain ⟨rau2, rbk2, rin2, rla2, rnb2, rna2, rni2, rlen2, rpres2, rsound2,
      rmem2⟩ := rg_spec gs2 (book_created d2 a2 s12).2 gids2 s32 hr2
    constructor
    · have h2A : s2.authors = s32.authors := by rw [hs2]
      rw [h2A, rau2, book_created_authors, h12]
    · rw [hb2, hb, ← haeq]

/-- Witness for C2 at a concrete input: creating wBs on the empty store
leaves exactly one author row matching the natural key, referenced by the
returned book. -/
theorem create_book_nested_upsert_witness :
    ∃ a, wCreatedStore.authors.filter (authorKeyMatch wAq) = [a] ∧
      wCreatedBook.author = a.id :=
  (create_book_nested_upsert emptyStore wBs wAq wCreatedBook wCreatedStore rfl
    (by decide)).1

/-- Auxiliary: field effect of the title step of update_book. -/
theorem apply_title_spec (du : BookSchemaUpdate) (b : BookRow) :
    (apply_title du b).title =
      (if truthyS du.title then oStr du.title else b.title) ∧
    (apply_title du b).id = b.id ∧ (apply_title du b).author = b.author ∧
    (apply_title du b).summary = b.summary ∧
    (apply_title du b).isbn = b.isbn ∧ (apply_title du b).genre = b.genre := by
  unfold apply_title
  split <;> simp_all

/-- Auxiliary: field effect of the summary step of update_book. -/
theorem apply_summary_spec (du : BookSchemaUpdate) (b : BookRow) :
    (apply_summary du b).summary =
      (if truthyS du.summary then oStr du.summary else b.summary) ∧
    (apply_summary du b).id = b.id ∧ (apply_summary du b).author = b.author ∧
    (apply_summary du b).title = b.title ∧
    (apply_summary du b).isbn = b.isbn ∧ (apply_summary du b).genre = b.genre := by
  unfold apply_summary
  split <;> simp_all

/-- Auxiliary: field effect of the isbn step of update_book. -/
theorem apply_isbn_spec (du : BookSchemaUpdate) (b : BookRow) :
    (apply_isbn du b).isbn =
      (if truthyS du.isbn then oStr du.isbn else b.isbn) ∧
    (apply_isbn du b).id = b.id ∧ (apply_isbn du b).author = b.author ∧
    (apply_isbn du b).title = b.title ∧
    (apply_isbn du b).summary = b.summary ∧
    (apply_isbn du b).genre = b.genre := by
  unfold apply_isbn
  split <;> simp_all

/-- Auxiliary: a truthy optional string is never the empty string. -/
theorem truthyS_oStr_ne {o : Option String} (h : truthyS o = true) :
    oStr o ≠ "" := by
  cases o with
  | none => cases h
  | some t =>
    simp only [truthyS, Bool.not_eq_true'] at h
    simp only [oStr, Option.getD_some]
    intro he
    rw [he] at h
    exact absurd h (by decide)

/-- Auxiliary: a truthiness-gated overwrite can never clear a text field. -/
theorem ite_oStr_ne_clear {c : Option String} {v old : String}
    (hv : v = (if truthyS c then oStr c else old)) (h : v = "") : old = "" := by
  by_cases hc : truthyS c = true
  · rw [hv, if_pos hc] at h
    exact absurd h (truthyS_oStr_ne hc)
  · rw [hv, if_neg hc] at h
    exact h

/-- Auxiliary: inversion of a successful authenticated update_book into the
title/author step and the rest. -/
theorem update_book_ok_inv {id : Nat} {du : BookSchemaUpdate} {s : Store}
    {b0 : BookRow} {b' : BookRow} {s' : Store}
    (hf : s.books.find? (fun x => x.id == id) = some b0)
    (h : update_book true id du s = (Resp.ok b', s')) :
    ∃ sa ba,
      ((du.author = none ∧ sa = s ∧ ba = apply_title du b0) ∨
       (∃ aq a, du.author = some aq ∧
         get_or_create_author aq s = some (a, sa) ∧
         ba = { apply_title du b0 with author := a.id })) ∧
      update_book_rest id du ba sa = (Resp.ok b', s') := by
  cases hau : du.author with
  | none =>
    simp only [update_book, hf] at h
    simp only [hau] at h
    simp at h
    exact ⟨s, apply_title du b0, Or.inl ⟨rfl, rfl, rfl⟩, h⟩
  | some aq =>
    cases hga : get_or_create_author aq s with
    | none => simp [update_book, hf, hau, hga] at h
    | some p =>
      obtain ⟨a, sa⟩ := p
      simp only [update_book, hf] at h
      simp only [hau, hga] at h
      simp at h
      exact ⟨sa, { apply_title du b0 with author := a.id },
        Or.inr ⟨aq, a, rfl, hga, rfl⟩, h⟩

/-- Auxiliary: inversion of a successful update_book_rest into the no-genre
and replace-genre outcomes. -/
theorem update_book_rest_ok_inv {id : Nat} {du : BookSchemaUpdate}
    {ba : BookRow} {sa : Store} {b' : BookRow} {s' : Store}
    (h : update_book_rest id du ba sa = (Resp.ok b', s')) :
    (truthyL du.genre = false ∧ b' = apply_isbn du (apply_summary du ba) ∧
      s' = { sa with books := sa.books.map (fun x => if x.id == id then b' else x) }) ∨
    (∃ gs gids s1, du.genre = some gs ∧ gs.isEmpty = false ∧
      resolve_genres gs sa = (some gids, s1) ∧
      b' = { apply_isbn du (apply_summary du ba) with genre := gids } ∧
      s' = { s1 with books := s1.books.map (fun x => if x.id == id then b' else x) }) := by
  cases hg : du.genre with
  | none =>
    simp only [update_book_rest, hg, save_book, Prod.mk.injEq,
      Resp.ok.injEq] at h
    refine Or.inl ⟨rfl, h.1.symm, ?_⟩
    rw [← h.2, ← h.1]
  | some gs =>
    cases he : gs.isEmpty with
    | true =>
      simp only [update_book_rest, hg, he, if_true, save_book, Prod.mk.injEq,
        Resp.ok.injEq] at h
      refine Or.inl ⟨?_, h.1.symm, ?_⟩
      · simp [truthyL, he]
      · rw [← h.2, ← h.1]
    | false =>
      cases hr : resolve_genres gs sa with
      | mk o s1 =>
        cases o with
        | none => simp [update_book_rest, hg, he, hr] at h
        | some gids =>
          simp only [update_book_rest, hg, he, Bool.false_eq_true, if_false,
            hr, save_book, Prod.mk.injEq, Resp.ok.injEq] at h
          refine Or.inr ⟨gs, gids, s1, rfl, he, hr, h.1.symm, ?_⟩
          rw [← h.2, ← h.1]

/-- Auxiliary: field effect of the first_name step of update_author. -/
theorem apply_afn_spec (du : AuthorSchemaUpdate) (a : AuthorRow) :
    (apply_afn du a).first_name =
      (if truthyS du.first_name then oStr du.first_name else a.first_name) ∧
    (apply_afn du a).id = a.id ∧ (apply_afn du a).last_name = a.last_name ∧
    (apply_afn du a).date_of_birth = a.date_of_birth ∧
    (apply_afn du a).date_of_death = a.date_of_death := by
  unfold apply_afn
  split <;> simp_all

/-- Auxiliary: field effect of the last_name step of update_author. -/
theorem apply_aln_spec (du : AuthorSchemaUpdate) (a : AuthorRow) :
    (apply_aln du a).last_name =
      (if truthyS du.last_name then oStr du.last_name else a.last_name) ∧
    (apply_aln du a).id = a.id ∧ (apply_aln du a).first_name = a.first_name ∧
    (apply_aln du a).date_of_birth = a.date_of_birth ∧
    (apply_aln du a).date_of_death = a.date_of_death := by
  unfold apply_aln
  split <;> simp_all

/-- Auxiliary: field effect of the date_of_birth step of update_author. -/
theorem apply_adob_spec (du : AuthorSchemaUpdate) (a : AuthorRow) :
    (apply_adob du a).date_of_birth =
      (if truthyD du.date_of_birth then du.date_of_birth else a.date_of_birth) ∧
    (apply_adob du a).id = a.id ∧ (apply_adob du a).first_name = a.first_name ∧
    (apply_adob du a).last_name = a.last_name ∧
    (apply_adob du a).date_of_death = a.date_of_death := by
  unfold apply_adob
  split <;> simp_all

/-- Auxiliary: field effect of the date_of_death step of update_author. -/
theorem apply_adod_spec (du : AuthorSchemaUpdate) (a : AuthorRow) :
    (apply_adod du a).date_of_death =
      (if truthyD du.date_of_death then du.date_of_death else a.date_of_death) ∧
    (apply_adod du a).id = a.id ∧ (apply_adod du a).first_name = a.first_name ∧
    (apply_adod du a).last_name = a.last_name ∧
    (apply_adod du a).date_of_birth = a.date_of_birth := by
  unfold apply_adod
  split <;> simp_all

/-- Auxiliary: field effect of the imprint step of update_book_instance. -/
theorem apply_iimp_spec (du : BookInstanceSchemaUpdate) (i : BookInstanceRow) :
    (apply_iimp du i).imprint =
      (if truthyS du.imprint then oStr du.imprint else i.imprint) ∧
    (apply_iimp du i).id = i.id ∧ (apply_iimp du i).book = i.book ∧
    (apply_iimp du i).due_back = i.due_back ∧
    (apply_iimp du i).status = i.status ∧
    (apply_iimp du i).borrower = i.borrower := by
  unfold apply_iimp
  split <;> simp_all

/-- Auxiliary: field effect of the due_back step of update_book_instance. -/
theorem apply_idue_spec (du : BookInstanceSchemaUpdate) (i : BookInstanceRow) :
    (apply_idue du i).due_back =
      (if truthyD du.due_back then du.due_back else i.due_back) ∧
    (apply_idue du i).id = i.id ∧ (apply_idue du i).book = i.book ∧
    (apply_idue du i).imprint = i.imprint ∧
    (apply_idue du i).status = i.status ∧
    (apply_idue du i).borrower = i.borrower := by
  unfold apply_idue
  split <;> simp_all

/-- Auxiliary: field effect of the status step of update_book_instance. -/
theorem apply_istat_spec (du : BookInstanceSchemaUpdate) (i : BookInstanceRow) :
    (apply_istat du i).status =
      (if truthyS du.status then oStr du.status else i.status) ∧
    (apply_istat du i).id = i.id ∧ (apply_istat du i).book = i.book ∧
    (apply_istat du i).imprint = i.imprint ∧
    (apply_istat du i).due_back = i.due_back ∧
    (apply_istat du i).borrower = i.borrower := by
  unfold apply_istat
  split <;> simp_all

/-- Auxiliary: inversion of a successful authenticated update_author. -/
theorem update_author_ok_inv {id : Nat} {da : AuthorSchemaUpdate} {s : Store}
    {a0 a' : AuthorRow} {s' : Store}
    (hf : s.authors.find? (fun x => x.id == id) = some a0)
    (h : update_author true id da s = (Resp.ok a', s')) :
    a' = apply_adod da (apply_adob da (apply_aln da (apply_afn da a0))) ∧
    s' = { s with authors := s.authors.map (fun x => if x.id == id then a' else x) } := by
  simp only [update_author, hf, Bool.not_true, Bool.false_eq_true, if_false,
    Prod.mk.injEq, Resp.ok.injEq] at h
  exact ⟨h.1.symm, by rw [← h.2, ← h.1]⟩

/-- Auxiliary: inversion of a successful authenticated update_book_instance. -/
theorem update_book_instance_ok_inv {id : Nat}
    {di : BookInstanceSchemaUpdate} {s : Store} {i0 i' : BookInstanceRow}
    {s' : Store}
    (hf : s.instances.find? (fun x => x.id == id) = some i0)
    (h : update_book_instance true id di s = (Resp.ok i', s')) :
    i' = apply_istat di (apply_idue di (apply_iimp di i0)) ∧
    s' = { s with instances := s.instances.map (fun x => if x.id == id then i' else x) } := by
  simp only [update_book_instance, hf, Bool.not_true, Bool.false_eq_true,
    if_false, Prod.mk.injEq, Resp.ok.injEq] at h
  exact ⟨h.1.symm, by rw [← h.2, ← h.1]⟩

/-- C7: partial update (Update-Book, Update-Author, Update-BookInstance)
overwrites exactly the fields supplied with truthy values and leaves every
other field of the target row unchanged; a field omitted or given a falsy
value keeps its prior value, so an update can never clear a text field to
empty, and the genre list, when supplied non-empty, fully replaces the
prior association set (a falsy empty list, like omission, keeps it). -/
theorem partial_update_truthy_fields (s : Store) (id : Nat)
    (db : BookSchemaUpdate) (da : AuthorSchemaUpdate)
    (di : BookInstanceSchemaUpdate) :
    (∀ b0 b' s', s.books.find? (fun x => x.id == id) = some b0 →
      update_book true id db s = (Resp.ok b', s') →
      b'.id = b0.id ∧
      b'.title = (if truthyS db.title then oStr db.title else b0.title) ∧
      b'.summary = (if truthyS db.summary then oStr db.summary else b0.summary) ∧
      b'.isbn = (if truthyS db.isbn then oStr db.isbn else b0.isbn) ∧
      (db.author = none → b'.author = b0.author) ∧
      (truthyL db.genre = false → b'.genre = b0.genre) ∧
      (b'.title = "" → b0.title = "") ∧
      (b'.summary = "" → b0.summary = "") ∧
      (b'.isbn = "" → b0.isbn = "") ∧
      s'.books = s.books.map (fun x => if x.id == id then b' else x) ∧
      s'.instances = s.instances ∧ s'.languages = s.languages ∧
      (∀ gs, db.genre = some gs → gs ≠ [] →
        b'.genre.length = gs.length ∧
        (∀ gq ∈ gs, ∃ g, s'.genres.filter (fun x => x.name == gq.name) = [g] ∧
          g.id ∈ b'.genre) ∧
        (∀ gid ∈ b'.genre, ∃ gq, gq ∈ gs ∧ ∃ g,
          s'.genres.filter (fun x => x.name == gq.name) = [g] ∧ g.id = gid))) ∧
    (∀ a0 a' s', s.authors.find? (fun x => x.id == id) = some a0 →
      update_author true id da s = (Resp.ok a', s') →
      a'.id = a0.id ∧
      a'.first_name =
        (if truthyS da.first_name then oStr da.first_name else a0.first_name) ∧
      a'.last_name =
        (if truthyS da.last_name then oStr da.last_name else a0.last_name) ∧
      a'.date_of_birth =
        (if truthyD da.date_of_birth then da.date_of_birth else a0.date_of_birth) ∧
      a'.date_of_death =
        (if truthyD da.date_of_death then da.date_of_death else a0.date_of_death) ∧
      (a'.first_name = "" → a0.first_name = "") ∧
      (a'.last_name = "" → a0.last_name = "") ∧
      s'.authors = s.authors.map (fun x => if x.id == id then a' else x) ∧
      s'.books = s.books ∧ s'.genres = s.genres ∧ s'.instances = s.instances) ∧
    (∀ i0 i' s', s.instances.find? (fun x => x.id == id) = some i0 →
      update_book_instance true id di s = (Resp.ok i', s') →
      i'.id = i0.id ∧ i'.book = i0.book ∧ i'.borrower = i0.borrower ∧
      i'.imprint = (if truthyS di.imprint then oStr di.imprint else i0.imprint) ∧
      i'.due_back = (if truthyD di.due_back then di.due_back else i0.due_back) ∧
      i'.status = (if truthyS di.status then oStr di.status else i0.status) ∧
      (i'.imprint = "" → i0.imprint = "") ∧
      s'.instances = s.instances.map (fun x => if x.id == id then i' else x) ∧
      s'.books = s.books ∧ s'.authors = s.authors) := by
  refine ⟨?_, ?_, ?_⟩
  · intro b0 b' s' hf hok
    obtain ⟨sa, ba, hcase, hrest⟩ := update_book_ok_inv hf hok
    have key : ba.title = (if truthyS db.title then oStr db.title else b0.title) ∧
        ba.id = b0.id ∧ ba.summary = b0.summary ∧ ba.isbn = b0.isbn ∧
        ba.genre = b0.genre ∧ (db.author = none → ba.author = b0.author) ∧
        sa.books = s.books ∧ sa.instances = s.instances ∧
        sa.languages = s.languages ∧ sa.genres = s.genres := by
      rcases hcase with ⟨hn, rfl, rfl⟩ | ⟨aq, a, hau, hga, rfl⟩
      · obtain ⟨t1, t2, t3, t4, t5, t6⟩ := apply_title_spec db b0
        exact ⟨t1, t2, t4, t5, t6, fun _ => t3, rfl, rfl, rfl, rfl⟩
      · obtain ⟨t1, t2, t3, t4, t5, t6⟩ := apply_title_spec db b0
        obtain ⟨af, agen, abk, ains, ala, _, _, _, _⟩ := goca_spec hga
        refine ⟨t1, t2, t4, t5, t6, ?_, abk, ains, ala, agen⟩
        intro hn
        rw [hau] at hn
        cases hn
    obtain ⟨hbaT, hbaId, hbaS, hbaI, hbaG, hbaA, hsaB, hsaI, hsaL, hsaG⟩ := key
    obtain ⟨s1', s2', s3', s4', s5', s6'⟩ := apply_summary_spec db ba
    obtain ⟨i1, i2, i3, i4, i5, i6⟩ := apply_isbn_spec db (apply_summary db ba)
    rcases update_book_rest_ok_inv hrest with
      ⟨hgF, hb', hs'⟩ | ⟨gs, gids, s1, hgs, hne0, hr, hb', hs'⟩
    · have hT : b'.title = (if truthyS db.title then oStr db.title else b0.title) := by
        simp only [hb', i4, s4', hbaT]
      have hS : b'.summary =
          (if truthyS db.summary then oStr db.summary else b0.summary) := by
        simp only [hb', i5, s1', hbaS]
      have hI : b'.isbn = (if truthyS db.isbn then oStr db.isbn else b0.isbn) := by
        simp only [hb', i1, s5', hbaI]
      have hS'B : s'.books = sa.books.map (fun x => if x.id == id then b' else x) := by
        rw [hs']
      have hS'I : s'.instances = sa.instances := by rw [hs']
      have hS'L : s'.languages = sa.languages := by rw [hs']
      refine ⟨by simp only [hb', i2, s2', hbaId], hT, hS, hI, ?_, ?_,
        fun h => ite_oStr_ne_clear hT h, fun h => ite_oStr_ne_clear hS h,
        fun h => ite_oStr_ne_clear hI h, by rw [hS'B, hsaB],
        by rw [hS'I, hsaI], by rw [hS'L, hsaL], ?_⟩
      · intro hn
        simp only [hb', i3, s3', hbaA hn]
      · intro _
        simp only [hb', i6, s6', hbaG]
      · intro gs hgsx hnex
        exfalso
        rw [hgsx] at hgF
        simp only [truthyL, Bool.not_eq_false'] at hgF
        exact hnex (List.isEmpty_iff.mp hgF)
    · obtain ⟨rau, rbk, rin, rla, rnb2, rna2, rni2, rlen, rpres, rsound,
        rmem⟩ := rg_spec gs sa gids s1 hr
      have hT : b'.title = (if truthyS db.title then oStr db.title else b0.title) := by
        simp only [hb', i4, s4', hbaT]
      have hS : b'.summary =
          (if truthyS db.summary then oStr db.summary else b0.summary) := by
        simp only [hb', i5, s1', hbaS]
      have hI : b'.isbn = (if truthyS db.isbn then oStr db.isbn else b0.isbn) := by
        simp only [hb', i1, s5', hbaI]
      have hS'B : s'.books = s1.books.map (fun x => if x.id == id then b' else x) := by
        rw [hs']
      have hS'I : s'.instances = s1.instances := by rw [hs']
      have hS'L : s'.languages = s1.languages := by rw [hs']
      have hS'G : s'.genres = s1.genres := by rw [hs']
      refine ⟨by simp only [hb', i2, s2', hbaId], hT, hS, hI, ?_, ?_,
        fun h => ite_oStr_ne_clear hT h, fun h => ite_oStr_ne_clear hS h,
        fun h => ite_oStr_ne_clear hI h, by rw [hS'B, rbk, hsaB],
        by rw [hS'I, rin, hsaI], by rw [hS'L, rla, hsaL], ?_⟩
      · intro hn
        simp only [hb', i3, s3', hbaA hn]
      · intro hgf
        exfalso
        rw [hgs] at hgf
        simp only [truthyL, Bool.not_eq_false'] at hgf
        rw [hgf] at hne0
        cases hne0
      · intro gs2 hgs2 hne2
        rw [hgs] at hgs2
        injection hgs2 with hgg
        subst hgg
        refine ⟨?_, ?_, ?_⟩
        · simp only [hb']
          exact rlen
        · intro gq hgq
          obtain ⟨g, h1, h2⟩ := rsound gq hgq
          refine ⟨g, by rw [hS'G]; exact h1, ?_⟩
          simp only [hb']
          exact h2
        · intro gid hgid
          simp only [hb'] at hgid
          obtain ⟨gq, hgq, g, hfil, heq⟩ := rmem gid hgid
          exact ⟨gq, hgq, g, by rw [hS'G]; exact hfil, heq⟩
  · intro a0 a' s' hf hok
    obtain ⟨hval, hst⟩ := update_author_ok_inv hf hok
    obtain ⟨f1, f2, f3, f4, f5⟩ := apply_afn_spec da a0
    obtain ⟨l1, l2, l3, l4, l5⟩ := apply_aln_spec da (apply_afn da a0)
    obtain ⟨o1, o2, o3, o4, o5⟩ :=
      apply_adob_spec da (apply_aln da (apply_afn da a0))
    obtain ⟨d1, d2, d3, d4, d5⟩ :=
      apply_adod_spec da (apply_adob da (apply_aln da (apply_afn da a0)))
    have hFn : a'.first_name =
        (if truthyS da.first_name then oStr da.first_name else a0.first_name) := by
      rw [hval, d3, o3, l3, f1]
    have hLn : a'.last_name =
        (if truthyS da.last_name then oStr da.last_name else a0.last_name) := by
      rw [hval, d4, o4, l1, f3]
    have hDob : a'.date_of_birth =
        (if truthyD da.date_of_birth then da.date_of_birth else a0.date_of_birth) := by
      rw [hval, d5, o1, l4, f4]
    have hDod : a'.date_of_death =
        (if truthyD da.date_of_death then da.date_of_death else a0.date_of_death) := by
      rw [hval, d1, o5, l5, f5]
    refine ⟨by rw [hval, d2, o2, l2, f2], hFn, hLn, hDob, hDod,
      fun h => ite_oStr_ne_clear hFn h, fun h => ite_oStr_ne_clear hLn h,
      by rw [hst], by rw [hst], by rw [hst], by rw [hst]⟩
  · intro i0 i' s' hf hok
    obtain ⟨hval, hst⟩ := update_book_instance_ok_inv hf hok
    obtain ⟨m1, m2, m3, m4, m5, m6⟩ := apply_iimp_spec di i0
    obtain ⟨u1, u2, u3, u4, u5, u6⟩ := apply_idue_spec di (apply_iimp di i0)
    obtain ⟨t1, t2, t3, t4, t5, t6⟩ :=
      apply_istat_spec di (apply_idue di (apply_iimp di i0))
    have hImp : i'.imprint =
        (if truthyS di.imprint then oStr di.imprint else i0.imprint) := by
      rw [hval, t4, u4, m1]
    have hDue : i'.due_back =
        (if truthyD di.due_back then di.due_back else i0.due_back) := by
      rw [hval, t5, u1, m4]
    have hSt : i'.status =
        (if truthyS di.status then oStr di.status else i0.status) := by
      rw [hval, t1, u5, m5]
    refine ⟨by rw [hval, t2, u2, m2], by rw [hval, t3, u3, m3],
      by rw [hval, t6, u6, m6], hImp, hDue, hSt,
      fun h => ite_oStr_ne_clear hImp h, by rw [hst], by rw [hst],
      by rw [hst]⟩

/-- Witness for C7 at concrete inputs: updating only the title of the
fixture book keeps its summary, updating only the first name of the
fixture author keeps the last name, and updating only the status of the
fixture instance keeps its borrower. -/
theorem partial_update_truthy_fields_witness :
    (⟨1, "New", 1, "s", "i", [1]⟩ : BookRow).summary =
      (if truthyS (none : Option String) then oStr none else wBookRow.summary) ∧
    (⟨1, "Jane", "Tolkien", none, none⟩ : AuthorRow).last_name =
      (if truthyS (none : Option String) then oStr none else wAuthorRow.last_name) ∧
    (⟨1, 1, "im", none, "o", none⟩ : BookInstanceRow).borrower =
      wInstRow.borrower :=
  ⟨((partial_update_truthy_fields wStoreU 1 { title := some "New" } {} {}).1
      wBookRow ⟨1, "New", 1, "s", "i", [1]⟩
      { wStoreU with books := [⟨1, "New", 1, "s", "i", [1]⟩] } rfl
      (by decide)).2.2.1,
   ((partial_update_truthy_fields wStoreU 1 {} { first_name := some "Jane" } {}).2.1
      wAuthorRow ⟨1, "Jane", "Tolkien", none, none⟩
      { wStoreU with authors := [⟨1, "Jane", "Tolkien", none, none⟩] } rfl
      (by decide)).2.2.1,
   ((partial_update_truthy_fields wStoreU 1 {} {} { status := some "o" }).2.2
      wInstRow ⟨1, 1, "im", none, "o", none⟩
      { wStoreU with instances := [⟨1, 1, "im", none, "o", none⟩] } rfl
      (by decide)).2.2.1⟩

/-- Auxiliary: genre resolution, even when it fails midway, only touches the
genre table. -/
theorem resolve_genres_frame : ∀ (gs : List GenreSchema) (s : Store),
    (resolve_genres gs s).2.authors = s.authors ∧
    (resolve_genres gs s).2.books = s.books ∧
    (resolve_genres gs s).2.instances = s.instances ∧
    (resolve_genres gs s).2.languages = s.languages := by
  intro gs
  induction gs with
  | nil => intro s; exact ⟨rfl, rfl, rfl, rfl⟩
  | cons g gs ih =>
    intro s
    cases hg : get_or_create_genre g s with
    | none => simp [resolve_genres, hg]
    | some p =>
      obtain ⟨r, s1⟩ := p
      obtain ⟨_, _, gau, gbk, gin, gla, _, _, _, _, _⟩ := gocg_spec hg
      cases hrest : resolve_genres gs s1 with
      | mk o s2 =>
        have hfr := ih s1
        rw [hrest] at hfr
        obtain ⟨ta, tb, tc, td⟩ := hfr
        cases o with
        | none =>
          simp only [resolve_genres, hg, hrest]
          exact ⟨by rw [ta, gau], by rw [tb, gbk], by rw [tc, gin],
            by rw [td, gla]⟩
        | some ids =>
          simp only [resolve_genres, hg, hrest]
          exact ⟨by rw [ta, gau], by rw [tb, gbk], by rw [tc, gin],
            by rw [td, gla]⟩

/-- Auxiliary: create_book never touches the instance table, whatever its
outcome. -/
theorem create_book_instances_eq (auth : Bool) (d : BookSchema) (s : Store) :
    (create_book auth d s).2.instances = s.instances := by
  cases auth with
  | false => rfl
  | true =>
    cases ha : d.author with
    | none => simp [create_book, ha]
    | some aq =>
      cases hga : get_or_create_author aq s with
      | none => simp [create_book, ha, hga]
      | some p =>
        obtain ⟨a, s1⟩ := p
        obtain ⟨_, _, _, ains, _, _, _, _, _⟩ := goca_spec hga
        cases hg : d.genre with
        | none =>
          simp [create_book, ha, hga, hg, book_created_instances, ains]
        | some gs =>
          cases hr : resolve_genres gs (book_created d a s1).2 with
          | mk o s3 =>
            have hfr := (resolve_genres_frame gs (book_created d a s1).2).2.2.1
            rw [hr] at hfr
            dsimp only at hfr
            cases o with
            | none =>
              simp only [create_book, ha, hga, hg, hr]
              simp [hfr, book_created_instances, ains]
            | some gids =>
              simp only [create_book, ha, hga, hg, hr]
              simp [hfr, book_created_instances, ains]

/-- Auxiliary: the tail of update_book never touches the instance table. -/
theorem update_book_rest_instances_eq (id : Nat) (du : BookSchemaUpdate)
    (b : BookRow) (sa : Store) :
    (update_book_rest id du b sa).2.instances = sa.instances := by
  cases hg : du.genre with
  | none => simp [update_book_rest, hg, save_book]
  | some gs =>
    cases he : gs.isEmpty with
    | true => simp [update_book_rest, hg, he, save_book]
    | false =>
      cases hr : resolve_genres gs sa with
      | mk o s1 =>
        have hfr := (resolve_genres_frame gs sa).2.2.1
        rw [hr] at hfr
        dsimp only at hfr
        cases o with
        | none => simp [update_book_rest, hg, he, hr, hfr]
        | some gids => simp [update_book_rest, hg, he, hr, save_book, hfr]

/-- Auxiliary: update_book never touches the instance table. -/
theorem update_book_instances_eq (auth : Bool) (id : Nat)
    (du : BookSchemaUpdate) (s : Store) :
    (update_book auth id du s).2.instances = s.instances := by
  cases auth with
  | false => rfl
  | true =>
    cases hf : s.books.find? (fun b => b.id == id) with
    | none => simp [update_book, hf]
    | some b0 =>
      cases hau : du.author with
      | none =>
        simp only [update_book, hf, hau, Bool.not_true, Bool.false_eq_true,
          if_false]
        exact update_book_rest_instances_eq id du _ s
      | some aq =>
        cases hga : get_or_create_author aq s with
        | none => simp [update_book, hf, hau, hga]
        | some p =>
          obtain ⟨a, s1⟩ := p
          obtain ⟨_, _, _, ains, _, _, _, _, _⟩ := goca_spec hga
          simp only [update_book, hf, hau, hga, Bool.not_true,
            Bool.false_eq_true, if_false]
          rw [update_book_rest_instances_eq id du _ s1, ains]

/-- Auxiliary: the Author, Genre and Language endpoints never touch the
instance table. -/
theorem other_ops_instances_eq (auth : Bool) (id : Nat) (aq : AuthorSchema)
    (au : AuthorSchemaUpdate) (g : GenreSchema) (l : LanguageSchema)
    (s : Store) :
    (create_author auth aq s).2.instances = s.instances ∧
    (update_author auth id au s).2.instances = s.instances ∧
    (delete_author auth id s).2.instances = s.instances ∧
    (create_genre auth g s).2.instances = s.instances ∧
    (update_genre auth id g s).2.instances = s.instances ∧
    (delete_genre auth id s).2.instances = s.instances ∧
    (create_language auth l s).2.instances = s.instances ∧
    (update_language auth id l s).2.instances = s.instances ∧
    (delete_language auth id s).2.instances = s.instances := by
  cases auth with
  | false => exact ⟨rfl, rfl, rfl, rfl, rfl, rfl, rfl, rfl, rfl⟩
  | true =>
    refine ⟨rfl, ?_, ?_, rfl, ?_, ?_, rfl, ?_, ?_⟩
    · cases hf : s.authors.find? (fun a => a.id == id) <;>
        simp [update_author, hf]
    · cases hf : s.authors.find? (fun a => a.id == id) <;>
        simp [delete_author, hf]
    · cases hf : s.genres.find? (fun x => x.id == id) <;>
        simp [update_genre, hf]
    · cases hf : s.genres.find? (fun x => x.id == id) <;>
        simp [delete_genre, hf]
    · cases hf : s.languages.find? (fun x => x.id == id) <;>
        simp [update_language, hf]
    · cases hf : s.languages.find? (fun x => x.id == id) <;>
        simp [delete_language, hf]

/-- Auxiliary: the instance table after the tail of create_book_instance is
either unchanged or extended by one instance with a null borrower. -/
theorem cbi_rest_instances (ds : BookInstanceSchema) (book : BookRow)
    (sB : Store) :
    (create_book_instance_rest ds book sB).2.instances = sB.instances ∨
    ∃ i, (create_book_instance_rest ds book sB).2.instances =
        sB.instances ++ [i] ∧ i.borrower = none := by
  cases hg : ds.book.genre with
  | none => exact Or.inl (by simp [create_book_instance_rest, hg])
  | some gs =>
    cases hr : resolve_genres gs sB with
    | mk o s1 =>
      have hfr := (resolve_genres_frame gs sB).2.2.1
      rw [hr] at hfr
      dsimp only at hfr
      cases o with
      | none =>
        refine Or.inl ?_
        simp [create_book_instance_rest, hg, hr, hfr]
      | some gids =>
        refine Or.inr ⟨⟨s1.nextInstanceId, book.id, ds.imprint, ds.due_back,
          ds.status, none⟩, ?_, rfl⟩
        simp only [create_book_instance_rest, hg, hr]
        rw [← hfr]
        try rfl

/-- Auxiliary: the instance table after create_book_instance is either
unchanged or extended by one instance with a null borrower. -/
theorem create_book_instance_instances (auth : Bool)
    (ds : BookInstanceSchema) (s : Store) :
    (create_book_instance auth ds s).2.instances = s.instances ∨
    ∃ i, (create_book_instance auth ds s).2.instances = s.instances ++ [i] ∧
      i.borrower = none := by
  cases auth with
  | false => exact Or.inl rfl
  | true =>
    cases ha : ds.book.author with
    | none => exact Or.inl (by simp [create_book_instance, ha])
    | some aq =>
      cases hga : get_or_create_author aq s with
      | none => exact Or.inl (by simp [create_book_instance, ha, hga])
      | some p =>
        obtain ⟨a, s1⟩ := p
        obtain ⟨_, _, _, ains, _, _, _, _, _⟩ := goca_spec hga
        cases hfl : s1.books.filter (fun b =>
          b.title == ds.book.title && b.author == a.id &&
          b.summary == ds.book.summary && b.isbn == ds.book.isbn) with
        | nil =>
          have hred : create_book_instance true ds s =
              create_book_instance_rest ds (book_created ds.book a s1).1
                (book_created ds.book a s1).2 := by
            simp [create_book_instance, ha, hga, hfl]
          rw [hred]
          rcases cbi_rest_instances ds (book_created ds.book a s1).1
            (book_created ds.book a s1).2 with hcase | ⟨i, hcase, hbor⟩
          · exact Or.inl (by rw [hcase, book_created_instances, ains])
          · exact Or.inr ⟨i, by rw [hcase, book_created_instances, ains], hbor⟩
        | cons bb t =>
          cases t with
          | nil =>
            have hred : create_book_instance true ds s =
                create_book_instance_rest ds bb s1 := by
              simp [create_book_instance, ha, hga, hfl]
            rw [hred]
            rcases cbi_rest_instances ds bb s1 with hcase | ⟨i, hcase, hbor⟩
            · exact Or.inl (by rw [hcase, ains])
            · exact Or.inr ⟨i, by rw [hcase, ains], hbor⟩
          | cons b2 t2 =>
            refine Or.inl ?_
            have hred : create_book_instance true ds s = (Resp.exn, s1) := by
              simp [create_book_instance, ha, hga, hfl]
            rw [hred]
            exact ains

/-- Auxiliary: a successful tail of create_book_instance appends exactly one
instance, with a null borrower. -/
theorem cbir_ok {ds : BookInstanceSchema} {book : BookRow} {sB : Store}
    {i : BookInstanceRow} {s' : Store}
    (h : create_book_instance_rest ds book sB = (Resp.ok i, s')) :
    i.borrower = none ∧ s'.instances = sB.instances ++ [i] := by
  cases hg : ds.book.genre with
  | none => simp [create_book_instance_rest, hg] at h
  | some gs =>
    cases hr : resolve_genres gs sB with
    | mk o s1 =>
      have hfr := (resolve_genres_frame gs sB).2.2.1
      rw [hr] at hfr
      dsimp only at hfr
      cases o with
      | none => simp [create_book_instance_rest, hg, hr] at h
      | some gids =>
        simp only [create_book_instance_rest, hg, hr, Prod.mk.injEq,
          Resp.ok.injEq] at h
        obtain ⟨hi, hs⟩ := h
        constructor
        · rw [← hi]
        · rw [← hs, ← hi]
          dsimp only
          rw [hfr]

/-- Auxiliary: a successful authenticated create_book_instance returns an
instance with a null borrower and appends exactly it. -/
theorem create_book_instance_ok {ds : BookInstanceSchema} {s : Store}
    {i : BookInstanceRow} {s' : Store}
    (h : create_book_instance true ds s = (Resp.ok i, s')) :
    i.borrower = none ∧ s'.instances = s.instances ++ [i] := by
  cases ha : ds.book.author with
  | none => simp [create_book_instance, ha] at h
  | some aq =>
    cases hga : get_or_create_author aq s with
    | none => simp [create_book_instance, ha, hga] at h
    | some p =>
      obtain ⟨a, s1⟩ := p
      obtain ⟨_, _, _, ains, _, _, _, _, _⟩ := goca_spec hga
      cases hfl : s1.books.filter (fun b =>
        b.title == ds.book.title && b.author == a.id &&
        b.summary == ds.book.summary && b.isbn == ds.book.isbn) with
      | nil =>
        have hred : create_book_instance true ds s =
            create_book_instance_rest ds (book_created ds.book a s1).1
              (book_created ds.book a s1).2 := by
          simp [create_book_instance, ha, hga, hfl]
        rw [hred] at h
        obtain ⟨h1, h2⟩ := cbir_ok h
        exact ⟨h1, by rw [h2, book_created_instances, ains]⟩
      | cons bb t =>
        cases t with
        | nil =>
          have hred : create_book_instance true ds s =
              create_book_instance_rest ds bb s1 := by
            simp [create_book_instance, ha, hga, hfl]
          rw [hred] at h
          obtain ⟨h1, h2⟩ := cbir_ok h
          exact ⟨h1, by rw [h2, ains]⟩
        | cons b2 t2 =>
          have hred : create_book_instance true ds s = (Resp.exn, s1) := by
            simp [create_book_instance, ha, hga, hfl]
          rw [hred] at h
          simp at h

/-- Auxiliary: borrower emptiness only depends on the instance table. -/
theorem borrowers_none_congr {s1 s2 : Store}
    (h : s1.instances = s2.instances) :
    borrowers_none s1 = borrowers_none s2 := by
  simp [borrowers_none, h]

/-- Auxiliary: deleting rows keeps all borrowers null. -/
theorem borrowers_none_filter {s : Store} {p : BookInstanceRow → Bool}
    (hbn : borrowers_none s = true) :
    (s.instances.filter p).all (fun i => i.borrower == none) = true := by
  rw [List.all_eq_true]
  intro i hi
  have hbn2 := List.all_eq_true.mp hbn
  exact hbn2 i (List.mem_filter.mp hi).1

/-- Auxiliary: delete_book keeps all borrowers null. -/
theorem delete_book_borrowers (auth : Bool) (id : Nat) (s : Store)
    (hbn : borrowers_none s = true) :
    borrowers_none (delete_book auth id s).2 = true := by
  cases auth with
  | false => exact hbn
  | true =>
    cases hf : s.books.find? (fun b => b.id == id) with
    | none => simpa [delete_book, hf] using hbn
    | some b0 =>
      simp only [delete_book, hf, Bool.not_true, Bool.false_eq_true, if_false]
      exact borrowers_none_filter hbn

/-- Auxiliary: delete_book_instance keeps all borrowers null. -/
theorem delete_book_instance_borrowers (auth : Bool) (id : Nat) (s : Store)
    (hbn : borrowers_none s = true) :
    borrowers_none (delete_book_instance auth id s).2 = true := by
  cases auth with
  | false => exact hbn
  | true =>
    cases hf : s.instances.find? (fun i => i.id == id) with
    | none => simpa [delete_book_instance, hf] using hbn
    | some i0 =>
      simp only [delete_book_instance, hf, Bool.not_true, Bool.false_eq_true,
        if_false]
      exact borrowers_none_filter hbn

/-- Auxiliary: update_book_instance keeps all borrowers null. -/
theorem update_book_instance_borrowers (auth : Bool) (id : Nat)
    (di : BookInstanceSchemaUpdate) (s : Store)
    (hbn : borrowers_none s = true) :
    borrowers_none (update_book_instance auth id di s).2 = true := by
  cases auth with
  | false => exact hbn
  | true =>
    cases hf : s.instances.find? (fun i => i.id == id) with
    | none => simpa [update_book_instance, hf] using hbn
    | some i0 =>
      simp only [update_book_instance, hf, Bool.not_true, Bool.false_eq_true,
        if_false]
      have hmem := List.all_eq_true.mp hbn
      have hi0 : i0.borrower = none := by
        have := hmem i0 (List.mem_of_find?_eq_some hf)
        simpa using this
      obtain ⟨m1, m2, m3, m4, m5, m6⟩ := apply_iimp_spec di i0
      obtain ⟨u1, u2, u3, u4, u5, u6⟩ := apply_idue_spec di (apply_iimp di i0)
      obtain ⟨t1, t2, t3, t4, t5, t6⟩ :=
        apply_istat_spec di (apply_idue di (apply_iimp di i0))
      rw [borrowers_none, List.all_eq_true]
      intro x hx
      obtain ⟨y, hy, hxy⟩ := List.mem_map.mp hx
      by_cases hc : (y.id == id) = true
      · rw [if_pos hc] at hxy
        rw [← hxy]
        simp [t6, u6, m6, hi0]
      · rw [if_neg hc] at hxy
        rw [← hxy]
        simpa using hmem y hy

/-- C10: Update-BookInstance can change only imprint, due_back and status —
the instance's book reference and borrower are unchanged by every update —
and Create-BookInstance never sets borrower, so under the JSON endpoints
alone (all fifteen mutating operations) the borrower of every persisted
BookInstance remains null regardless of its status. -/
theorem instance_endpoints_borrower_frame (s : Store) (id : Nat)
    (di : BookInstanceSchemaUpdate) (ds : BookInstanceSchema)
    (db : BookSchema) (du : BookSchemaUpdate) (aq : AuthorSchema)
    (au : AuthorSchemaUpdate) (g : GenreSchema) (l : LanguageSchema)
    (auth : Bool) :
    (∀ i0 i' s', s.instances.find? (fun x => x.id == id) = some i0 →
      update_book_instance true id di s = (Resp.ok i', s') →
      i'.id = i0.id ∧ i'.book = i0.book ∧ i'.borrower = i0.borrower) ∧
    (∀ i s', create_book_instance true ds s = (Resp.ok i, s') →
      i.borrower = none ∧ s'.instances = s.instances ++ [i]) ∧
    (borrowers_none s = true →
      borrowers_none (create_book auth db s).2 = true ∧
      borrowers_none (update_book auth id du s).2 = true ∧
      borrowers_none (delete_book auth id s).2 = true ∧
      borrowers_none (create_book_instance auth ds s).2 = true ∧
      borrowers_none (update_book_instance auth id di s).2 = true ∧
      borrowers_none (delete_book_instance auth id s).2 = true ∧
      borrowers_none (create_author auth aq s).2 = true ∧
      borrowers_none (update_author auth id au s).2 = true ∧
      borrowers_none (delete_author auth id s).2 = true ∧
      borrowers_none (create_genre auth g s).2 = true ∧
      borrowers_none (update_genre auth id g s).2 = true ∧
      borrowers_none (delete_genre auth id s).2 = true ∧
      borrowers_none (create_language auth l s).2 = true ∧
      borrowers_none (update_language auth id l s).2 = true ∧
      borrowers_none (delete_language auth id s).2 = true) := by
  refine ⟨?_, ?_, ?_⟩
  · intro i0 i' s' hf hok
    obtain ⟨hval, hst⟩ := update_book_instance_ok_inv hf hok
    obtain ⟨m1, m2, m3, m4, m5, m6⟩ := apply_iimp_spec di i0
    obtain ⟨u1, u2, u3, u4, u5, u6⟩ := apply_idue_spec di (apply_iimp di i0)
    obtain ⟨t1, t2, t3, t4, t5, t6⟩ :=
      apply_istat_spec di (apply_idue di (apply_iimp di i0))
    exact ⟨by rw [hval, t2, u2, m2], by rw [hval, t3, u3, m3],
      by rw [hval, t6, u6, m6]⟩
  · intro i s' hok
    exact create_book_instance_ok hok
  · intro hbn
    have hbn2 : s.instances.all (fun x => x.borrower == none) = true := hbn
    obtain ⟨o1, o2, o3, o4, o5, o6, o7, o8, o9⟩ :=
      other_ops_instances_eq auth id aq au g l s
    refine ⟨?_, ?_, delete_book_borrowers auth id s hbn, ?_,
      update_book_instance_borrowers auth id di s hbn,
      delete_book_instance_borrowers auth id s hbn,
      ?_, ?_, ?_, ?_, ?_, ?_, ?_, ?_, ?_⟩
    · rw [borrowers_none_congr (create_book_instances_eq auth db s)]
      exact hbn
    · rw [borrowers_none_congr (update_book_instances_eq auth id du s)]
      exact hbn
    · rcases create_book_instance_instances auth ds s with heq | ⟨i, heq, hbor⟩
      · rw [borrowers_none_congr heq]
        exact hbn
      · have hrw : borrowers_none (create_book_instance auth ds s).2 =
            (s.instances ++ [i]).all (fun x => x.borrower == none) := by
          simp only [borrowers_none, heq]
        rw [hrw, List.all_append]
        simp [hbor, hbn2]
    · rw [borrowers_none_congr o1]; exact hbn
    · rw [borrowers_none_congr o2]; exact hbn
    · rw [borrowers_none_congr o3]; exact hbn
    · rw [borrowers_none_congr o4]; exact hbn
    · rw [borrowers_none_congr o5]; exact hbn
    · rw [borrowers_none_congr o6]; exact hbn
    · rw [borrowers_none_congr o7]; exact hbn
    · rw [borrowers_none_congr o8]; exact hbn
    · rw [borrowers_none_congr o9]; exact hbn

/-- Witness for C10 at concrete inputs: the instance created from wIs has a
null borrower, a status-only update of the fixture instance keeps its book
reference, and deleting the fixture book keeps all borrowers null. -/
theorem instance_endpoints_borrower_frame_witness :
    (⟨1, 1, "im", none, "o", none⟩ : BookInstanceRow).borrower = none ∧
    (⟨1, 1, "im", none, "o", none⟩ : BookInstanceRow).book = wInstRow.book ∧
    borrowers_none (delete_book true 1 wStoreU).2 = true :=
  ⟨((instance_endpoints_borrower_frame emptyStore 1 {} wIs wBs {} wAq {}
      ⟨"g"⟩ ⟨"l"⟩ true).2.1 ⟨1, 1, "im", none, "o", none⟩
      { authors := [⟨1, "J", "Tolkien", none, none⟩]
        genres := [⟨1, "Fantasy"⟩]
        languages := []
        books := [⟨1, "The Hobbit", 1, "s", "i", [1]⟩]
        instances := [⟨1, 1, "im", none, "o", none⟩]
        nextAuthorId := 2, nextGenreId := 2, nextLanguageId := 1
        nextBookId := 2, nextInstanceId := 2 } (by decide)).1,
   ((instance_endpoints_borrower_frame wStoreU 1 { status := some "o" } wIs
      wBs {} wAq {} ⟨"g"⟩ ⟨"l"⟩ true).1 wInstRow
      ⟨1, 1, "im", none, "o", none⟩
      { wStoreU with instances := [⟨1, 1, "im", none, "o", none⟩] } rfl
      (by decide)).2.1,
   ((instance_endpoints_borrower_frame wStoreU 1 { status := some "o" } wIs
      wBs {} wAq {} ⟨"g"⟩ ⟨"l"⟩ true).2.2 (by decide)).2.2.1⟩
